import Mathlib

/-!
# pam-freerdp: a shallow embedding of `src/pam-freerdp.c`

The module has one helper (`get_item`) and three framework callbacks
(`pam_sm_authenticate`, `pam_sm_open_session`, `pam_sm_close_session`).

Modelling conventions

* A C string is the list of its characters before the terminating NUL
  (`CString`).  A `char *` that may be `NULL` is an `Option CString`.
  Pointer arithmetic inside a string is `List.drop`, storing a NUL inside a
  string and reading the string again is `List.take`.
* Every call into the framework or the kernel is recorded as an `Event`, in
  program order, together with the value the call returned.  The values the
  environment returns are inputs of the model (`pam_handle_t`, `AuthSys`,
  `SessionSys`): one field per call site.
* A function body produces a `Run`: the events it caused and how it ended
  (`Term.ret` when the C function returns to its caller, `Term.exit` when the
  process calls `_exit`, `Term.exec` when `execvp` replaces the image,
  `Term.fault` when the behaviour is undefined: a null pointer is
  dereferenced or a store leaves its object).
* `strdup` is taken to succeed, and so is `malloc` for a size in the range of
  `int`; `free` is not modelled.
* The constants of `<security/_pam_types.h>`, `<signal.h>`, `<sys/stat.h>` and
  `<sys/un.h>` are the Linux values; those headers are not part of the
  repository.
-/

namespace PamFreerdp

/-! ## Constants -/

abbrev CString := List Char

def PAM_SUCCESS : Int := 0
def PAM_SYSTEM_ERR : Int := 4
def PAM_AUTH_ERR : Int := 7
def PAM_IGNORE : Int := 25

def PAM_USER : Int := 2
def PAM_RHOST : Int := 4
def PAM_CONV : Int := 5
def PAM_AUTHTOK : Int := 6
def PAM_RUSER : Int := 8
/-- Line 34: `#define PAM_TYPE_DOMAIN 1234`. -/
def PAM_TYPE_DOMAIN : Int := 1234

def PAM_PROMPT_ECHO_OFF : Int := 1
def PAM_PROMPT_ECHO_ON : Int := 2

def SIGKILL : Int := 9
def EXIT_FAILURE : Int := 1

/-- Mode bit `S_IRUSR` (octal 0400). -/
def S_IRUSR : Nat := 256
/-- Mode bit `S_IWUSR` (octal 0200). -/
def S_IWUSR : Nat := 128

/-- Size of `sockaddr_un.sun_path` on Linux. -/
def SUN_PATH_SIZE : Nat := 108

/-! ## Framework data -/

structure pam_message where
  msg : Option CString
  msg_style : Int
deriving DecidableEq, Repr

structure pam_response where
  resp : Option CString
  resp_retcode : Int
deriving DecidableEq, Repr

/-- The record `struct pam_conv`.  The member `conv` is a function pointer that
may be null; called with `num_msg` and the messages it gives back a return
code and the `responses` pointer (null or the first response). -/
structure pam_conv where
  conv : Option (Int → List pam_message → Int × Option pam_response)

/-- What the framework answers to `pam_get_item`: for a text item the return
code and the pointer stored in `value`; for `PAM_CONV` the return code and the
pointer stored in `conv`. -/
structure pam_handle_t where
  item : Int → Int × Option CString
  conv_item : Int × Option pam_conv

structure passwd where
  pw_dir : CString
  pw_uid : Nat
  pw_gid : Nat
deriving DecidableEq, Repr

/-! ## Events and runs -/

inductive Event where
  | pam_get_item (item_type : Int)
  | conv (num_msg : Int) (msgs : List pam_message)
  | kill (pid : Int) (sig : Int) (ret : Int)
  | store_session_pid (v : Int)
  | getpwnam (name : CString)
  | socket (ret : Int)
  | bind (fd : Int) (path : CString) (ret : Int)
  | chmod (path : CString) (mode : Nat) (ret : Int)
  | chown (path : CString) (uid : Nat) (gid : Nat) (ret : Int)
  | close (fd : Int)
  | pipe (ret : Int)
  | fork (ret : Int)
  | dup2 (oldfd : Int) (newfd : Int)
  | write (fd : Int) (data : List Char) (ret : Int)
  | waitpid (pid : Int) (ret : Int)
  | setgid (id : Nat) (ret : Int)
  | setuid (id : Nat) (ret : Int)
  | setegid (id : Nat) (ret : Int)
  | seteuid (id : Nat) (ret : Int)
  | setenv (name : CString) (value : CString)
  | listen (fd : Int) (backlog : Int) (ret : Int)
  | accept (fd : Int) (ret : Int)
  | execvp (file : CString) (args : List CString)
deriving DecidableEq, Repr

/-- How a function body ends. -/
inductive Term (α : Type) where
  | ret (a : α)
  | exit (code : Int)
  | exec (file : CString) (args : List CString)
  | fault
deriving DecidableEq, Repr

structure Run (α : Type) where
  events : List Event
  out : Term α
deriving DecidableEq, Repr

namespace Run

def pure {α : Type} (a : α) : Run α := ⟨[], Term.ret a⟩

def bind {α β : Type} (r : Run α) (f : α → Run β) : Run β :=
  match r.out with
  | Term.ret a => ⟨r.events ++ (f a).events, (f a).out⟩
  | Term.exit c => ⟨r.events, Term.exit c⟩
  | Term.exec p a => ⟨r.events, Term.exec p a⟩
  | Term.fault => ⟨r.events, Term.fault⟩

/-- One call into the environment: record the event, hand back the value. -/
def call {α : Type} (e : Event) (a : α) : Run α := ⟨[e], Term.ret a⟩

def emit (e : Event) : Run Unit := ⟨[e], Term.ret ()⟩

def exit {α : Type} (code : Int) : Run α := ⟨[], Term.exit code⟩

def fault {α : Type} : Run α := ⟨[], Term.fault⟩

end Run

instance : Monad Run where
  pure := Run.pure
  bind := Run.bind

/-! ## String helpers of the C library -/

/-- The C function `strstr`: offset of the first occurrence of `needle` in
`hay`, `none` for `NULL`. -/
def strstr (hay needle : CString) : Option Nat :=
  if needle.isPrefixOf hay then some 0
  else
    match hay with
    | [] => none
    | _ :: t => (strstr t needle).map (· + 1)

/-! ## `get_item` (lines 37-108) -/

/-- Lines 57-76: the `switch` that fills in the message; `none` is the
`default: return NULL`. -/
def prompt_message (type : Int) : Option pam_message :=
  if type = PAM_USER then some ⟨some "login:".toList, PAM_PROMPT_ECHO_ON⟩
  else if type = PAM_RUSER then some ⟨some "remote login:".toList, PAM_PROMPT_ECHO_ON⟩
  else if type = PAM_RHOST then some ⟨some "remote host:".toList, PAM_PROMPT_ECHO_ON⟩
  else if type = PAM_AUTHTOK then some ⟨some "password:".toList, PAM_PROMPT_ECHO_OFF⟩
  else if type = PAM_TYPE_DOMAIN then some ⟨some "domain:".toList, PAM_PROMPT_ECHO_ON⟩
  else none

/-- Lines 91-105: the rewrite of a prompted remote host.  `subloc` is the offset
of "://", `newish` the text after it, `endslash` the offset of the first "/" in
`newish`; storing NUL at `endslash` and duplicating `newish` keeps the
characters before it. -/
def strip_scheme (retval : CString) : CString :=
  match strstr retval "://".toList with
  | some subloc =>
    let newish := retval.drop (subloc + "://".toList.length)
    match strstr newish "/".toList with
    | some endslash => newish.take endslash
    | none => newish
  | none => retval

/-- Lines 78-107: the prompt, once the message is built. -/
def get_item_prompt (pamh : pam_handle_t) (type : Int) (message : pam_message) :
    Run (Option CString) := do
  let (rc, conv) ← Run.call (Event.pam_get_item PAM_CONV) pamh.conv_item
  if rc ≠ PAM_SUCCESS then return none
  match conv with
  | none => return none
  | some c =>
    match c.conv with
    | none => return none
    | some f =>
      let (rc2, responses) ← Run.call (Event.conv 1 [message]) (f 1 [message])
      if rc2 ≠ PAM_SUCCESS then return none
      match responses with
      | none => Run.fault
      | some r =>
        let retval := r.resp
        if type = PAM_RHOST then
          match retval with
          | none => Run.fault
          | some s => return some (strip_scheme s)
        else return retval

/-- Lines 37-108. -/
def get_item (pamh : pam_handle_t) (type : Int) : Run (Option CString) := do
  let cached ←
    if type ≠ PAM_TYPE_DOMAIN then do
      let (rc, value) ← Run.call (Event.pam_get_item type) (pamh.item type)
      if rc = PAM_SUCCESS then pure value else pure none
    else pure none
  match cached with
  | some v => return some v
  | none =>
    match prompt_message type with
    | none => return none
    | some message => get_item_prompt pamh type message

/-! ## Privilege drop shared by both children (lines 164-167 and 288-291) -/

/-- Return values of the four identity calls, one field per call. -/
structure DropRets where
  setgid_ret : Int
  setuid_ret : Int
  setegid_ret : Int
  seteuid_ret : Int
deriving DecidableEq, Repr

/-- The condition `setgid(..) < 0 || setuid(..) < 0 || setegid(..) < 0 ||
seteuid(..) < 0`, evaluated left to right with short circuit; `true` when the
child must `_exit(EXIT_FAILURE)`. -/
def drop_privileges (pw : passwd) (d : DropRets) : Run Bool := do
  let r1 ← Run.call (Event.setgid pw.pw_gid d.setgid_ret) d.setgid_ret
  if r1 < 0 then return true
  let r2 ← Run.call (Event.setuid pw.pw_uid d.setuid_ret) d.setuid_ret
  if r2 < 0 then return true
  let r3 ← Run.call (Event.setegid pw.pw_gid d.setegid_ret) d.setegid_ret
  if r3 < 0 then return true
  let r4 ← Run.call (Event.seteuid pw.pw_uid d.seteuid_ret) d.seteuid_ret
  if r4 < 0 then return true
  return false

/-- Conversion of a wider integer to `int` (two's complement, 32 bits): a value
inside the range of `int` is kept, any other value wraps modulo `2 ^ 32`
(`to_int32_eq_wrap` states the single formula). -/
def to_int32 (x : Int) : Int :=
  match x with
  | Int.ofNat n => if n < 2 ^ 31 then x else (x + 2 ^ 31) % 2 ^ 32 - 2 ^ 31
  | Int.negSucc n => if n < 2 ^ 31 then x else (x + 2 ^ 31) % 2 ^ 32 - 2 ^ 31

/-! ## `pam_sm_authenticate` (lines 121-207) -/

/-- What the kernel and the C library answer during one call of
`pam_sm_authenticate`.  `AUTH_CHECK` is a build-time definition that is not in
the source file.  `wstatus` is the word `waitpid` stores in `forkret` when it
succeeds. -/
structure AuthSys where
  AUTH_CHECK : CString
  pipe_ret : Int
  pipe_rd : Int
  pipe_wr : Int
  fork_ret : Int
  getpwnam : CString → Option passwd
  drop : DropRets
  execvp_returns : Bool
  write_password_ret : Int
  write_newline_ret : Int
  waitpid_ret : Int
  wstatus : Int

/-- Lines 148-174: the verifier child. -/
def auth_child (sys : AuthSys) (username ruser rhost rdomain : CString) : Run Int := do
  Run.emit (Event.dup2 sys.pipe_rd 0)
  let args := [sys.AUTH_CHECK, rhost, ruser, rdomain]
  let pwdent ← Run.call (Event.getpwnam username) (sys.getpwnam username)
  match pwdent with
  | none => Run.exit EXIT_FAILURE
  | some pw =>
    let failed ← drop_privileges pw sys.drop
    if failed then Run.exit EXIT_FAILURE
    else do
      Run.emit (Event.setenv "HOME".toList pw.pw_dir)
      Run.emit (Event.execvp sys.AUTH_CHECK args)
      if sys.execvp_returns then Run.exit EXIT_FAILURE
      else ⟨[], Term.exec sys.AUTH_CHECK args⟩

/-- Lines 179-195: the parent after a successful fork. -/
def auth_parent (sys : AuthSys) (pid : Int) (password : CString) : Run Int := do
  let forkret0 : Int := 0
  let bytesout0 : Int := 0
  let w1 ← Run.call (Event.write sys.pipe_wr password sys.write_password_ret)
    sys.write_password_ret
  let bytesout1 := to_int32 (bytesout0 + w1)
  let w2 ← Run.call (Event.write sys.pipe_wr "\n".toList sys.write_newline_ret)
    sys.write_newline_ret
  let bytesout := to_int32 (bytesout1 + w2)
  Run.emit (Event.close sys.pipe_wr)
  let wr ← Run.call (Event.waitpid pid sys.waitpid_ret) sys.waitpid_ret
  let forkret := if wr < 0 then forkret0 else sys.wstatus
  if wr < 0 ∨ bytesout = 0 then return PAM_SYSTEM_ERR
  else if forkret = 0 then return PAM_SUCCESS
  else return PAM_AUTH_ERR

/-- Lines 181-184: the value of `int bytesout` after the two `+=`, from the
results of the two `write` calls (as in `auth_parent`). -/
def bytesout_of (write_password_ret write_newline_ret : Int) : Int :=
  let bytesout0 : Int := 0
  let bytesout1 := to_int32 (bytesout0 + write_password_ret)
  to_int32 (bytesout1 + write_newline_ret)

/-- Lines 139-196: everything after the five items are acquired. -/
def auth_body (sys : AuthSys) (username ruser rhost rdomain password : CString) : Run Int := do
  let pr ← Run.call (Event.pipe sys.pipe_ret) sys.pipe_ret
  if pr ≠ 0 then return PAM_SYSTEM_ERR
  let pid ← Run.call (Event.fork sys.fork_ret) sys.fork_ret
  if pid = 0 then auth_child sys username ruser rhost rdomain
  else if pid = -1 then return PAM_SYSTEM_ERR
  else auth_parent sys pid password

/-- Lines 133-137: the five `GET_ITEM` lines; a `NULL` item sets
`retval = PAM_AUTH_ERR` and jumps to `done`. -/
def with_items (pamh : pam_handle_t)
    (k : CString → CString → CString → CString → CString → Run Int) : Run Int := do
  let some username ← get_item pamh PAM_USER | return PAM_AUTH_ERR
  let some ruser ← get_item pamh PAM_RUSER | return PAM_AUTH_ERR
  let some rhost ← get_item pamh PAM_RHOST | return PAM_AUTH_ERR
  let some rdomain ← get_item pamh PAM_TYPE_DOMAIN | return PAM_AUTH_ERR
  let some password ← get_item pamh PAM_AUTHTOK | return PAM_AUTH_ERR
  k username ruser rhost rdomain password

/-- Lines 121-207. -/
def pam_sm_authenticate (pamh : pam_handle_t) (sys : AuthSys) : Run Int :=
  with_items pamh (auth_body sys)

/-! ## The socket address buffer (lines 252-255) -/

def NUL : Char := Char.ofNat 0

/-- The field `socket_addr.sun_path` and what is stored around it: `field` holds
the bytes of the field, `outside` lists, in program order, the offsets (counted
from the start of the field) of the stores that fall past its last byte. -/
structure SunPath where
  field : List Char
  outside : List Nat
deriving DecidableEq, Repr

/-- One byte store at `sun_path + off`. -/
def store_byte (b : SunPath) (off : Nat) (c : Char) : SunPath :=
  if off < b.field.length then ⟨b.field.set off c, b.outside⟩
  else ⟨b.field, b.outside ++ [off]⟩

/-- The C function `strncpy(sun_path + dest, src, n)`: exactly `n` bytes are
stored, the characters of `src` first and NUL bytes once `src` is used up. -/
def strncpy (b : SunPath) (dest : Nat) (src : CString) (n : Nat) : SunPath :=
  (List.range n).foldl (fun acc i => store_byte acc (dest + i) (src.getD i NUL)) b

/-- Lines 252-255 for a field of `size` bytes: `memset` to zero, then the two
`strncpy` calls, each with count `size - 1`. -/
def build_sun_path (size : Nat) (pw_dir : CString) : SunPath :=
  let b0 : SunPath := ⟨List.replicate size NUL, []⟩
  let b1 := strncpy b0 0 pw_dir (size - 1)
  strncpy b1 pw_dir.length "/.freerdp-socket".toList (size - 1)

/-- The C string that starts at `sun_path`, when it ends inside the field. -/
def field_cstr (field : List Char) : Option CString :=
  if NUL ∈ field then some (field.takeWhile (· ≠ NUL)) else none

/-- Lines 252-255 and the path that `bind`, `chmod` and `chown` then read from
`socket_addr.sun_path`.  `none` stands for undefined behaviour: a `strncpy`
stored past the last byte of the field (`sun_path` is the last member of
`socket_addr`, so such a store leaves the object), or the text in the field has
no NUL inside the field. -/
@[irreducible]
def sun_path_string (pw_dir : CString) : Option CString :=
  if (build_sun_path SUN_PATH_SIZE pw_dir).outside = [] then
    field_cstr (build_sun_path SUN_PATH_SIZE pw_dir).field
  else none

/-! ## `pam_sm_open_session` (lines 209-335) and `pam_sm_close_session` -/

/-- What the kernel and the C library answer during one call of
`pam_sm_open_session`. -/
structure SessionSys where
  kill_ret : Int
  getpwnam : CString → Option passwd
  socket_ret : Int
  bind_ret : Int
  chmod_ret : Int
  chown_ret : Int
  fork_ret : Int
  drop : DropRets
  listen_ret : Int
  accept_ret : Int
  write_ret : Int

/-- The C function `snprintf(buffer, size, ..)` for an expansion `text`: at most
`size - 1` characters and a terminating NUL; nothing when `size` is 0. -/
def snprintf (size : Nat) (text : List Char) : List Char :=
  if size = 0 then [] else text.take (size - 1) ++ [NUL]

/-- Lines 287-318: the deliverer child. -/
def deliverer_child (sys : SessionSys) (pw : passwd) (socketfd : Int)
    (buffer : List Char) (buffer_len : Int) : Run Int := do
  let failed ← drop_privileges pw sys.drop
  if failed then Run.exit EXIT_FAILURE
  else do
    let l ← Run.call (Event.listen socketfd 1 sys.listen_ret) sys.listen_ret
    if l < 0 then Run.exit EXIT_FAILURE
    else do
      let connectfd ← Run.call (Event.accept socketfd sys.accept_ret) sys.accept_ret
      if connectfd < 0 then Run.exit EXIT_FAILURE
      else do
        let w ← Run.call
          (Event.write connectfd (buffer.take buffer_len.toNat) sys.write_ret) sys.write_ret
        let writedata := to_int32 w
        Run.emit (Event.close connectfd)
        Run.emit (Event.close socketfd)
        if writedata = buffer_len then Run.exit 0 else Run.exit EXIT_FAILURE

/-- Lines 277-281: the value of `int buffer_len` after the four additions. -/
def buffer_len_of (ruser rhost rdomain password : CString) : Int :=
  let buffer_len0 : Int := 0
  let buffer_len1 := to_int32 (buffer_len0 + (ruser.length + 1))
  let buffer_len2 := to_int32 (buffer_len1 + (rhost.length + 1))
  let buffer_len3 := to_int32 (buffer_len2 + (rdomain.length + 1))
  to_int32 (buffer_len3 + (password.length + 1))

/-- Lines 275-325: the payload buffer and the fork.  A negative `buffer_len`
(the sum left the range of `int`) becomes a size no `malloc` can serve, and
`snprintf` stores through the null pointer. -/
def session_fork (sys : SessionSys) (pw : passwd) (socketfd : Int)
    (ruser rhost rdomain password : CString) : Run Int := do
  let buffer_len := buffer_len_of ruser rhost rdomain password
  if buffer_len < 0 then Run.fault
  else do
    let buffer := snprintf buffer_len.toNat
      (ruser ++ " ".toList ++ password ++ " ".toList ++ rdomain ++ " ".toList ++ rhost)
    let pid ← Run.call (Event.fork sys.fork_ret) sys.fork_ret
    if pid = 0 then deliverer_child sys pw socketfd buffer buffer_len
    else if pid < 0 then do
      Run.emit (Event.close socketfd)
      return PAM_SYSTEM_ERR
    else do
      Run.emit (Event.store_session_pid pid)
      return PAM_SUCCESS

/-- Lines 236-325: everything after the five items are acquired.  When one of
the two `strncpy` calls stores past `socket_addr` (see `sun_path_string`) the
behaviour of the C program is undefined and the run stops with `Term.fault`. -/
def session_body (sys : SessionSys) (username ruser rhost rdomain password : CString) :
    Run Int := do
  let pwdent ← Run.call (Event.getpwnam username) (sys.getpwnam username)
  match pwdent with
  | none => return PAM_SYSTEM_ERR
  | some pw =>
    let socketfd ← Run.call (Event.socket sys.socket_ret) sys.socket_ret
    if socketfd < 0 then return PAM_SYSTEM_ERR
    else
      match sun_path_string pw.pw_dir with
      | none => Run.fault
      | some sun_path => do
        let b ← Run.call (Event.bind socketfd sun_path sys.bind_ret) sys.bind_ret
        if b < 0 then do
          Run.emit (Event.close socketfd)
          return PAM_SYSTEM_ERR
        else do
          let cm ← Run.call (Event.chmod sun_path (S_IRUSR ||| S_IWUSR) sys.chmod_ret)
            sys.chmod_ret
          if cm ≠ 0 then do
            Run.emit (Event.close socketfd)
            return PAM_SYSTEM_ERR
          else do
            let co ← Run.call (Event.chown sun_path pw.pw_uid pw.pw_gid sys.chown_ret)
              sys.chown_ret
            if co ≠ 0 then do
              Run.emit (Event.close socketfd)
              return PAM_SYSTEM_ERR
            else session_fork sys pw socketfd ruser rhost rdomain password

/-- Lines 216-219 and 342-345: kill the recorded deliverer and clear the
record.  `session_pid` is the value of the global on entry. -/
def reap_stale (kill_ret : Int) (session_pid : Int) : Run Unit :=
  if session_pid ≠ 0 then do
    Run.emit (Event.kill session_pid SIGKILL kill_ret)
    Run.emit (Event.store_session_pid 0)
  else pure ()

/-- Lines 213-335.  `session_pid` is the value of the global on entry; the
value on exit is the last `store_session_pid` of the run. -/
def pam_sm_open_session (pamh : pam_handle_t) (sys : SessionSys) (session_pid : Int) :
    Run Int := do
  reap_stale sys.kill_ret session_pid
  with_items pamh (session_body sys)

/-- Lines 339-348. -/
def pam_sm_close_session (kill_ret : Int) (session_pid : Int) : Run Int := do
  reap_stale kill_ret session_pid
  return PAM_IGNORE

/-- Value of the global `session_pid` after the events, from its value before. -/
def session_pid_after (session_pid : Int) (events : List Event) : Int :=
  events.foldl (fun cur e =>
    match e with
    | Event.store_session_pid v => v
    | _ => cur) session_pid

/-! ## Observations on a run -/

/-- An event of item acquisition: a `pam_get_item` call or a conversation. -/
def is_item_event : Event → Bool
  | Event.pam_get_item _ => true
  | Event.conv _ _ => true
  | _ => false

def is_conv : Event → Bool
  | Event.conv _ _ => true
  | _ => false

def is_kill : Event → Bool
  | Event.kill _ _ _ => true
  | _ => false

/-- The calls of the conversation function made during a run, in order. -/
def conv_calls (events : List Event) : List Event := events.filter is_conv

/-- The bytes that reach the peer of descriptor `fd`: for every `write` on `fd`
the first `ret` bytes of its data, nothing when the call failed. -/
def bytes_written (fd : Int) : List Event → List Char
  | [] => []
  | Event.write fd2 data ret :: rest =>
    (if fd2 = fd ∧ 0 ≤ ret then data.take ret.toNat else []) ++ bytes_written fd rest
  | _ :: rest => bytes_written fd rest

/-- The status word that `waitpid` stores for a child that ended by `_exit(code)`
or by returning `code` from `main` (the encoding of `<sys/wait.h>` on Linux):
the low eight bits of the code, shifted left by eight. -/
def wait_status_exited (code : Nat) : Int := ((code % 256 * 256 : Nat) : Int)

/-- The pids a signal was sent to during a run. -/
def killed_pids : List Event → List Int
  | [] => []
  | Event.kill p _ _ :: rest => p :: killed_pids rest
  | _ :: rest => killed_pids rest

/-! ## The socket file: effect of `bind`, `chmod`, `chown` on the file system -/

/-- Permission bits and owner of a file. -/
structure FileMeta where
  mode : Nat
  uid : Nat
  gid : Nat
deriving DecidableEq, Repr

/-- What the kernel gives a socket file that `bind` creates: the permission bits
left by the umask of the caller, and the caller as owner. -/
structure Creator where
  mode : Nat
  uid : Nat
  gid : Nat
deriving DecidableEq, Repr

abbrev FS := CString → Option FileMeta

/-- Effect of one event on the file system.  A successful `bind` creates the
file, a successful `chmod` replaces its permission bits, a successful `chown`
replaces its owner; a failed call and every other event change nothing. -/
def fs_event (cr : Creator) (fs : FS) : Event → FS
  | Event.bind _ path ret =>
    if 0 ≤ ret then Function.update fs path (some ⟨cr.mode, cr.uid, cr.gid⟩) else fs
  | Event.chmod path mode ret =>
    if ret = 0 then
      match fs path with
      | some m => Function.update fs path (some ⟨mode, m.uid, m.gid⟩)
      | none => fs
    else fs
  | Event.chown path uid gid ret =>
    if ret = 0 then
      match fs path with
      | some m => Function.update fs path (some ⟨m.mode, uid, gid⟩)
      | none => fs
    else fs
  | _ => fs

def fs_after (cr : Creator) (fs : FS) (events : List Event) : FS :=
  events.foldl (fs_event cr) fs

/-- The group and other permission bits (octal 077) of a mode. -/
def group_other_bits (mode : Nat) : Nat := mode &&& 63

/-! ## Sequences of framework calls -/

/-- A conversation function that answers every prompt with `answer`. -/
def conv_answering (answer : CString) : Int → List pam_message → Int × Option pam_response :=
  fun _ _ => (PAM_SUCCESS, some ⟨some answer, 0⟩)

/-- No cached item at all; the user types "rdp://host.example.com/extra". -/
def rhost_prompt_handle : pam_handle_t :=
  ⟨fun _ => (PAM_SUCCESS, none),
    (PAM_SUCCESS, some ⟨some (conv_answering "rdp://host.example.com/extra".toList)⟩)⟩

/-- An application that registered a `struct pam_conv` whose function pointer is
null, and no cached item. -/
def no_conv_handle : pam_handle_t :=
  ⟨fun _ => (PAM_SUCCESS, none), (PAM_SUCCESS, some ⟨none⟩)⟩

/-- The events of the five `GET_ITEM` lines when all five succeed. -/
def items_events (pamh : pam_handle_t) : List Event :=
  (get_item pamh PAM_USER).events ++ (get_item pamh PAM_RUSER).events ++
  (get_item pamh PAM_RHOST).events ++ (get_item pamh PAM_TYPE_DOMAIN).events ++
  (get_item pamh PAM_AUTHTOK).events

/-- Return code of `pam_get_item` for an item type the framework does not know. -/
def PAM_BAD_ITEM : Int := 29

/-- The login of the end-to-end scenarios: user "alice", remote user "bob",
remote host "10.0.0.5" and the given password are cached, the domain "CORP" is
typed at the prompt. -/
def scenario_handle (password : CString) : pam_handle_t :=
  ⟨fun t =>
      if t = PAM_USER then (PAM_SUCCESS, some "alice".toList)
      else if t = PAM_RUSER then (PAM_SUCCESS, some "bob".toList)
      else if t = PAM_RHOST then (PAM_SUCCESS, some "10.0.0.5".toList)
      else if t = PAM_AUTHTOK then (PAM_SUCCESS, some password)
      else (PAM_BAD_ITEM, none),
    (PAM_SUCCESS, some ⟨some (conv_answering "CORP".toList)⟩)⟩

def alice : passwd := ⟨"/home/alice".toList, 1000, 1000⟩

/-- An account whose home directory is "/": with a home directory of at most one
character line 255 stores nothing past `sun_path`. -/
def slash_home : passwd := ⟨"/".toList, 1000, 1000⟩

/-- A run of `pam_sm_authenticate` in the parent (child pid 4001) with the given
results of the two writes and of `waitpid`. -/
def auth_sys (w1 w2 waitpid_ret wstatus : Int) : AuthSys :=
  { AUTH_CHECK := "/usr/lib/freerdp/freerdp-auth-check".toList
    pipe_ret := 0
    pipe_rd := 5
    pipe_wr := 6
    fork_ret := 4001
    getpwnam := fun _ => some alice
    drop := ⟨0, 0, 0, 0⟩
    execvp_returns := false
    write_password_ret := w1
    write_newline_ret := w2
    waitpid_ret := waitpid_ret
    wstatus := wstatus }

/-- A password longer than a pipe holds (65536 bytes). -/
def long_password : CString := List.replicate 70000 'x'

/-- The credential bundle in the words of the specification: remote user,
password, domain and remote host, in this order, joined by single spaces. -/
def bundle_of_spec (ruser password domain rhost : CString) : List Char :=
  ruser ++ [' '] ++ password ++ [' '] ++ domain ++ [' '] ++ rhost

/-- An event of a forked child: an identity change, `listen`, `accept`,
`write` or `close`. -/
def is_child_event : Event → Bool
  | Event.setgid _ _ => true
  | Event.setuid _ _ => true
  | Event.setegid _ _ => true
  | Event.seteuid _ _ => true
  | Event.listen _ _ _ => true
  | Event.accept _ _ => true
  | Event.write _ _ _ => true
  | Event.close _ => true
  | _ => false

def is_write : Event → Bool
  | Event.write _ _ _ => true
  | _ => false

/-- The `write` calls of a run, in order. -/
def write_calls (events : List Event) : List Event := events.filter is_write

/-- A run of `pam_sm_open_session` for an account with home directory "/":
socket descriptor 3, accepted connection 4, every call succeeds except as given
by `chmod_ret`, `fork_ret` (0 in the deliverer child) and `write_ret`. -/
def session_sys (chmod_ret fork_ret write_ret : Int) : SessionSys :=
  { kill_ret := 0
    getpwnam := fun _ => some slash_home
    socket_ret := 3
    bind_ret := 0
    chmod_ret := chmod_ret
    chown_ret := 0
    fork_ret := fork_ret
    drop := ⟨0, 0, 0, 0⟩
    listen_ret := 0
    accept_ret := 4
    write_ret := write_ret }

/-- Events that touch neither the record `session_pid`, nor the process table,
nor the socket file: everything except `kill`, the store to `session_pid`,
`fork`, `bind`, `chmod` and `chown`. -/
def is_neutral : Event → Bool
  | Event.kill _ _ _ => false
  | Event.store_session_pid _ => false
  | Event.fork _ => false
  | Event.bind _ _ _ => false
  | Event.chmod _ _ _ => false
  | Event.chown _ _ _ _ => false
  | _ => true

/-- The events of a run that are not neutral, in order. -/
def core_events (events : List Event) : List Event :=
  events.filter (fun e => !is_neutral e)

/-- The events of lines 216-219 and 342-345 for a given value of the record. -/
def reap_events (kill_ret : Int) (session_pid : Int) : List Event :=
  if session_pid ≠ 0 then
    [Event.kill session_pid SIGKILL kill_ret, Event.store_session_pid 0]
  else []

/-- The ways `pam_sm_open_session` can go on once the socket exists, told by its
core events and its end: `bind` fails; `chmod` fails; `chown` fails; the
length of the payload leaves the range of `int`; the run continues in the
deliverer child; `fork` fails; the deliverer is recorded. -/
def SessionOutcome (sys : SessionSys) (pw : passwd) (path : CString)
    (core : List Event) (out : Term Int) : Prop :=
  (sys.bind_ret < 0 ∧ out = Term.ret PAM_SYSTEM_ERR ∧
    core = [Event.bind sys.socket_ret path sys.bind_ret]) ∨
  (0 ≤ sys.bind_ret ∧ sys.chmod_ret ≠ 0 ∧ out = Term.ret PAM_SYSTEM_ERR ∧
    core = [Event.bind sys.socket_ret path sys.bind_ret,
      Event.chmod path (S_IRUSR ||| S_IWUSR) sys.chmod_ret]) ∨
  (0 ≤ sys.bind_ret ∧ sys.chmod_ret = 0 ∧ sys.chown_ret ≠ 0 ∧ out = Term.ret PAM_SYSTEM_ERR ∧
    core = [Event.bind sys.socket_ret path sys.bind_ret,
      Event.chmod path (S_IRUSR ||| S_IWUSR) sys.chmod_ret,
      Event.chown path pw.pw_uid pw.pw_gid sys.chown_ret]) ∨
  (0 ≤ sys.bind_ret ∧ sys.chmod_ret = 0 ∧ sys.chown_ret = 0 ∧ out = Term.fault ∧
    core = [Event.bind sys.socket_ret path sys.bind_ret,
      Event.chmod path (S_IRUSR ||| S_IWUSR) sys.chmod_ret,
      Event.chown path pw.pw_uid pw.pw_gid sys.chown_ret]) ∨
  (0 ≤ sys.bind_ret ∧ sys.chmod_ret = 0 ∧ sys.chown_ret = 0 ∧ sys.fork_ret = 0 ∧
    (∃ code, out = Term.exit code) ∧
    core = [Event.bind sys.socket_ret path sys.bind_ret,
      Event.chmod path (S_IRUSR ||| S_IWUSR) sys.chmod_ret,
      Event.chown path pw.pw_uid pw.pw_gid sys.chown_ret, Event.fork sys.fork_ret]) ∨
  (0 ≤ sys.bind_ret ∧ sys.chmod_ret = 0 ∧ sys.chown_ret = 0 ∧ sys.fork_ret < 0 ∧
    out = Term.ret PAM_SYSTEM_ERR ∧
    core = [Event.bind sys.socket_ret path sys.bind_ret,
      Event.chmod path (S_IRUSR ||| S_IWUSR) sys.chmod_ret,
      Event.chown path pw.pw_uid pw.pw_gid sys.chown_ret, Event.fork sys.fork_ret]) ∨
  (0 ≤ sys.bind_ret ∧ sys.chmod_ret = 0 ∧ sys.chown_ret = 0 ∧ 0 < sys.fork_ret ∧
    out = Term.ret PAM_SUCCESS ∧
    core = [Event.bind sys.socket_ret path sys.bind_ret,
      Event.chmod path (S_IRUSR ||| S_IWUSR) sys.chmod_ret,
      Event.chown path pw.pw_uid pw.pw_gid sys.chown_ret, Event.fork sys.fork_ret,
      Event.store_session_pid sys.fork_ret])

@[simp] theorem Run.bind_mk_ret {α β : Type} (ev : List Event) (a : α) (f : α → Run β) :
    Run.bind ⟨ev, Term.ret a⟩ f = ⟨ev ++ (f a).events, (f a).out⟩ := rfl

@[simp] theorem Run.bind_mk_fault {α β : Type} (ev : List Event) (f : α → Run β) :
    Run.bind ⟨ev, Term.fault⟩ f = ⟨ev, Term.fault⟩ := rfl

@[simp] theorem Run.bind_call {α β : Type} (e : Event) (a : α) (f : α → Run β) :
    Run.bind (Run.call e a) f = ⟨e :: (f a).events, (f a).out⟩ := rfl

@[simp] theorem Run.bind_emit {β : Type} (e : Event) (f : Unit → Run β) :
    Run.bind (Run.emit e) f = ⟨e :: (f ()).events, (f ()).out⟩ := rfl

@[simp] theorem Run.bind_pure {α β : Type} (a : α) (f : α → Run β) :
    Run.bind (Run.pure a) f = f a := rfl

@[simp] theorem Run.bind_eq {α β : Type} (r : Run α) (f : α → Run β) :
    (r >>= f) = Run.bind r f := rfl

@[simp] theorem Run.pure_eq {α : Type} (a : α) : (Pure.pure a : Run α) = Run.pure a := rfl

@[simp] theorem Run.pure_events {α : Type} (a : α) : (Run.pure a).events = [] := rfl

@[simp] theorem Run.pure_out {α : Type} (a : α) : (Run.pure a).out = Term.ret a := rfl

@[simp] theorem Run.exit_events {α : Type} (c : Int) : (Run.exit c : Run α).events = [] := rfl

@[simp] theorem Run.exit_out {α : Type} (c : Int) : (Run.exit c : Run α).out = Term.exit c := rfl

@[simp] theorem Run.fault_events {α : Type} : (Run.fault : Run α).events = [] := rfl

@[simp] theorem Run.fault_out {α : Type} : (Run.fault : Run α).out = Term.fault := rfl

@[simp] theorem Run.emit_events (e : Event) : (Run.emit e).events = [e] := rfl

@[simp] theorem Run.emit_out (e : Event) : (Run.emit e).out = Term.ret () := rfl

@[simp] theorem Run.call_events {α : Type} (e : Event) (a : α) : (Run.call e a).events = [e] := rfl

@[simp] theorem Run.call_out {α : Type} (e : Event) (a : α) :
    (Run.call e a).out = Term.ret a := rfl

theorem Run.eta {α : Type} (r : Run α) : (⟨r.events, r.out⟩ : Run α) = r := rfl

/-! ## `strstr` finds the first occurrence -/

theorem strstr_none {needle : CString} : ∀ {hay : CString}, strstr hay needle = none →
    ∀ pre post, hay ≠ pre ++ needle ++ post := by
  intro hay
  induction hay with
  | nil =>
    intro h pre post heq
    unfold strstr at h
    split at h
    · simp at h
    · rename_i hp
      have : needle = [] := by
        have := congrArg List.length heq
        simp at this
        exact List.eq_nil_of_length_eq_zero (by omega)
      simp [this] at hp
  | cons c t ih =>
    intro h pre post heq
    unfold strstr at h
    split at h
    · simp at h
    · rename_i hp
      simp only [Option.map_eq_none'] at h
      cases pre with
      | nil =>
        apply hp
        rw [List.isPrefixOf_iff_prefix]
        exact ⟨post, by simpa using heq.symm⟩
      | cons d pre2 =>
        simp only [List.cons_append, List.cons.injEq] at heq
        exact ih h pre2 post heq.2

theorem strstr_some {needle : CString} : ∀ {hay : CString} {k : Nat}, strstr hay needle = some k →
    (∃ post, hay = hay.take k ++ needle ++ post) ∧
    ∀ pre post, hay = pre ++ needle ++ post → k ≤ pre.length := by
  intro hay
  induction hay with
  | nil =>
    intro k h
    unfold strstr at h
    split at h
    · rename_i hp
      rw [List.isPrefixOf_iff_prefix] at hp
      obtain ⟨post, hpost⟩ := hp
      simp only [Option.some.injEq] at h
      subst h
      exact ⟨⟨post, by simpa using hpost.symm⟩, fun _ _ _ => Nat.zero_le _⟩
    · simp at h
  | cons c t ih =>
    intro k h
    unfold strstr at h
    split at h
    · rename_i hp
      rw [List.isPrefixOf_iff_prefix] at hp
      obtain ⟨post, hpost⟩ := hp
      simp only [Option.some.injEq] at h
      subst h
      exact ⟨⟨post, by simpa using hpost.symm⟩, fun _ _ _ => Nat.zero_le _⟩
    · rename_i hp
      simp only [Option.map_eq_some'] at h
      obtain ⟨j, hj, rfl⟩ := h
      obtain ⟨⟨post, hpost⟩, hmin⟩ := ih hj
      refine ⟨⟨post, ?_⟩, ?_⟩
      · simp only [List.take_succ_cons, List.cons_append, List.cons.injEq, true_and]
        simpa using hpost
      · intro pre post2 heq
        cases pre with
        | nil =>
          exfalso
          apply hp
          rw [List.isPrefixOf_iff_prefix]
          exact ⟨post2, by simpa using heq.symm⟩
        | cons d pre2 =>
          simp only [List.cons_append, List.cons.injEq] at heq
          have := hmin pre2 post2 heq.2
          simp only [List.length_cons]
          omega


/-- Where the first occurrence sits: the offset found by `strstr` is the length
of the shortest text in front of an occurrence. -/
theorem strstr_first {needle hay pre post : CString} (h : hay = pre ++ needle ++ post)
    (hmin : ∀ pre2 post2, hay = pre2 ++ needle ++ post2 → pre.length ≤ pre2.length) :
    strstr hay needle = some pre.length := by
  cases hs : strstr hay needle with
  | none => exact absurd h (strstr_none hs pre post)
  | some k =>
    obtain ⟨⟨post2, hpost2⟩, hk⟩ := strstr_some hs
    have h1 := hk pre post h
    have h2 := hmin _ _ hpost2
    simp only [List.length_take] at h2
    congr 1
    omega

theorem strip_scheme_no_delim {r : CString}
    (h : ∀ pre post, r ≠ pre ++ "://".toList ++ post) : strip_scheme r = r := by
  unfold strip_scheme
  cases hs : strstr r "://".toList with
  | none => rfl
  | some k =>
    obtain ⟨⟨post, hpost⟩, _⟩ := strstr_some hs
    exact absurd hpost (h _ _)

theorem strip_scheme_delim {r pre post : CString} (h : r = pre ++ "://".toList ++ post)
    (hmin : ∀ pre2 post2, r = pre2 ++ "://".toList ++ post2 → pre.length ≤ pre2.length) :
    strip_scheme r =
      match strstr post "/".toList with
      | some e => post.take e
      | none => post := by
  unfold strip_scheme
  rw [strstr_first h hmin]
  have : List.drop (pre.length + "://".toList.length) r = post := by
    subst h
    rw [List.append_assoc, ← Nat.add_zero (pre.length + _), ← List.length_append]
    simp
  simp only [this]

theorem strip_scheme_slash {r pre host tail : CString}
    (h : r = pre ++ "://".toList ++ (host ++ '/' :: tail))
    (hmin : ∀ pre2 post2, r = pre2 ++ "://".toList ++ post2 → pre.length ≤ pre2.length)
    (hhost : '/' ∉ host) : strip_scheme r = host := by
  rw [strip_scheme_delim h hmin]
  have hf : strstr (host ++ '/' :: tail) "/".toList = some host.length := by
    apply @strstr_first "/".toList (host ++ '/' :: tail) host tail
    · simp
    · intro pre2 post2 heq
      by_contra hlt
      have hlt : pre2.length < host.length := by omega
      have h3 := congrArg (fun l => l[pre2.length]?) heq
      simp only [String.toList] at h3
      rw [List.getElem?_append_left hlt] at h3
      rw [List.append_assoc, List.getElem?_append_right (Nat.le_refl _)] at h3
      simp only [Nat.sub_self, List.singleton_append, List.getElem?_cons_zero] at h3
      exact hhost (List.mem_iff_getElem?.mpr ⟨_, h3⟩)
  rw [hf]
  simp

theorem strip_scheme_no_slash {r pre post : CString}
    (h : r = pre ++ "://".toList ++ post)
    (hmin : ∀ pre2 post2, r = pre2 ++ "://".toList ++ post2 → pre.length ≤ pre2.length)
    (hpost : '/' ∉ post) : strip_scheme r = post := by
  rw [strip_scheme_delim h hmin]
  cases hs : strstr post "/".toList with
  | none => rfl
  | some e =>
    exfalso
    obtain ⟨⟨p2, hp2⟩, _⟩ := strstr_some hs
    apply hpost
    rw [hp2]
    simp


/-! ## `get_item` -/

theorem get_item_cached (pamh : pam_handle_t) (type : Int) (v : CString)
    (ht : type ≠ PAM_TYPE_DOMAIN) (hv : pamh.item type = (PAM_SUCCESS, some v)) :
    get_item pamh type = ⟨[Event.pam_get_item type], Term.ret (some v)⟩ := by
  simp [get_item, ht, hv, Run.pure]

/-- The prompt path of `get_item`: taken for the domain kind, and for another
kind when `pam_get_item` fails or stores a null pointer. -/
theorem get_item_uncached (pamh : pam_handle_t) (type : Int) (m : pam_message)
    (hu : type = PAM_TYPE_DOMAIN ∨ (pamh.item type).1 ≠ PAM_SUCCESS ∨ (pamh.item type).2 = none)
    (hm : prompt_message type = some m) :
    get_item pamh type =
      ⟨(if type = PAM_TYPE_DOMAIN then [] else [Event.pam_get_item type]) ++
        (get_item_prompt pamh type m).events, (get_item_prompt pamh type m).out⟩ := by
  unfold get_item
  by_cases ht : type = PAM_TYPE_DOMAIN
  · simp [ht, ← hm, Run.eta]
    rw [← ht, hm]
  · rcases hi : pamh.item type with ⟨rc, value⟩
    rw [hi] at hu
    by_cases hrc : rc = PAM_SUCCESS
    · have hval : value = none := by
        rcases hu with h | h | h
        · exact absurd h ht
        · exact absurd hrc h
        · exact h
      simp [ht, hrc, hval, hm]
    · simp [ht, hrc, hm]

/-- The prompt when the framework hands out a conversation function: one
`pam_get_item (PAM_CONV)`, one call of the function with the single message. -/
theorem get_item_prompt_events (pamh : pam_handle_t) (type : Int) (m : pam_message)
    (f : Int → List pam_message → Int × Option pam_response)
    (hc : pamh.conv_item = (PAM_SUCCESS, some ⟨some f⟩)) :
    (get_item_prompt pamh type m).events = [Event.pam_get_item PAM_CONV, Event.conv 1 [m]] := by
  unfold get_item_prompt
  rw [hc]
  rcases hf : f 1 [m] with ⟨rc2, resp⟩
  by_cases h2 : rc2 = PAM_SUCCESS
  · rcases resp with _ | ⟨⟨_ | s⟩, rr⟩
    · simp [h2, hf]
    · by_cases h3 : type = PAM_RHOST <;> simp [h2, h3, hf]
    · by_cases h3 : type = PAM_RHOST <;> simp [h2, h3, hf]
  · simp [h2, hf]

theorem get_item_prompt_answer (pamh : pam_handle_t) (type : Int) (m : pam_message)
    (f : Int → List pam_message → Int × Option pam_response) (r : CString) (rr : Int)
    (hc : pamh.conv_item = (PAM_SUCCESS, some ⟨some f⟩))
    (hf : f 1 [m] = (PAM_SUCCESS, some ⟨some r, rr⟩)) :
    (get_item_prompt pamh type m).out =
      Term.ret (some (if type = PAM_RHOST then strip_scheme r else r)) := by
  unfold get_item_prompt
  rw [hc]
  by_cases h3 : type = PAM_RHOST <;> simp [h3, hf]

/-- Without a usable conversation function nothing is prompted. -/
theorem get_item_prompt_no_conv (pamh : pam_handle_t) (type : Int) (m : pam_message)
    (hc : pamh.conv_item.1 ≠ PAM_SUCCESS ∨ pamh.conv_item.2 = none ∨
      ∃ c, pamh.conv_item.2 = some c ∧ c.conv = none) :
    get_item_prompt pamh type m = ⟨[Event.pam_get_item PAM_CONV], Term.ret none⟩ := by
  unfold get_item_prompt
  rcases hci : pamh.conv_item with ⟨rc, conv⟩
  rw [hci] at hc
  by_cases h1 : rc = PAM_SUCCESS
  · rcases hc with h | h | ⟨c, h, hcn⟩
    · exact absurd h1 h
    · simp only at h
      subst h
      simp [h1, Run.pure]
    · simp only at h
      subst h
      rcases c with ⟨cf⟩
      simp only at hcn
      subst hcn
      simp [h1, Run.pure]
  · simp [h1, Run.pure]

theorem get_item_prompt_shape (pamh : pam_handle_t) (type : Int) (m : pam_message) :
    ((get_item_prompt pamh type m).events = [Event.pam_get_item PAM_CONV] ∧
      (get_item_prompt pamh type m).out = Term.ret none) ∨
    ((get_item_prompt pamh type m).events = [Event.pam_get_item PAM_CONV, Event.conv 1 [m]] ∧
      ((∃ v, (get_item_prompt pamh type m).out = Term.ret v) ∨
        (get_item_prompt pamh type m).out = Term.fault)) := by
  unfold get_item_prompt
  rcases hc : pamh.conv_item with ⟨rc, conv⟩
  simp only [Run.bind_eq, Run.bind_call, Run.pure_eq]
  by_cases h1 : rc = PAM_SUCCESS
  · rcases conv with _ | ⟨⟨_ | f⟩⟩
    · left; simp [h1, Run.pure]
    · left; simp [h1, Run.pure]
    · right
      rcases hf : f 1 [m] with ⟨rc2, resp⟩
      by_cases h2 : rc2 = PAM_SUCCESS
      · rcases resp with _ | ⟨⟨_ | s⟩, rr⟩
        · simp [h1, h2, hf, Run.pure, Run.fault]
        · by_cases h3 : type = PAM_RHOST <;> simp [h1, h2, h3, hf, Run.pure, Run.fault]
        · by_cases h3 : type = PAM_RHOST <;> simp [h1, h2, h3, hf, Run.pure, Run.fault]
      · simp [h1, h2, hf, Run.pure, Run.fault]
  · left; simp [h1, Run.pure]

/-! ## C1: normalisation of a prompted remote host -/

theorem get_item_rhost_answer (pamh : pam_handle_t)
    (f : Int → List pam_message → Int × Option pam_response) (r : CString) (rr : Int)
    (hnc : (pamh.item PAM_RHOST).1 ≠ PAM_SUCCESS ∨ (pamh.item PAM_RHOST).2 = none)
    (hc : pamh.conv_item = (PAM_SUCCESS, some ⟨some f⟩))
    (hf : f 1 [⟨some "remote host:".toList, PAM_PROMPT_ECHO_ON⟩] =
      (PAM_SUCCESS, some ⟨some r, rr⟩)) :
    (get_item pamh PAM_RHOST).out = Term.ret (some (strip_scheme r)) := by
  rw [get_item_uncached pamh PAM_RHOST ⟨some "remote host:".toList, PAM_PROMPT_ECHO_ON⟩
    (Or.inr hnc) (by decide)]
  simp only []
  rw [get_item_prompt_answer pamh PAM_RHOST _ f r rr hc hf]
  simp

/-- C1: a prompted remote-host response `r` that contains "://" comes back as the
text after the first "://" up to the first "/" that follows (to the end of `r`
when none follows); a response without "://" comes back unchanged; the two
examples of the specification. -/
theorem get_item_rhost_normalised (pamh : pam_handle_t)
    (f : Int → List pam_message → Int × Option pam_response) (r : CString) (rr : Int)
    (hnc : (pamh.item PAM_RHOST).1 ≠ PAM_SUCCESS ∨ (pamh.item PAM_RHOST).2 = none)
    (hc : pamh.conv_item = (PAM_SUCCESS, some ⟨some f⟩))
    (hf : f 1 [⟨some "remote host:".toList, PAM_PROMPT_ECHO_ON⟩] =
      (PAM_SUCCESS, some ⟨some r, rr⟩)) :
    (∀ pre host tail, r = pre ++ "://".toList ++ (host ++ '/' :: tail) →
      (∀ pre2 post2, r = pre2 ++ "://".toList ++ post2 → pre.length ≤ pre2.length) →
      '/' ∉ host → (get_item pamh PAM_RHOST).out = Term.ret (some host)) ∧
    (∀ pre post, r = pre ++ "://".toList ++ post →
      (∀ pre2 post2, r = pre2 ++ "://".toList ++ post2 → pre.length ≤ pre2.length) →
      '/' ∉ post → (get_item pamh PAM_RHOST).out = Term.ret (some post)) ∧
    ((∀ pre post, r ≠ pre ++ "://".toList ++ post) →
      (get_item pamh PAM_RHOST).out = Term.ret (some r)) ∧
    (r = "rdp://host.example.com/extra".toList →
      (get_item pamh PAM_RHOST).out = Term.ret (some "host.example.com".toList)) ∧
    (r = "plainhost".toList →
      (get_item pamh PAM_RHOST).out = Term.ret (some "plainhost".toList)) := by
  rw [get_item_rhost_answer pamh f r rr hnc hc hf]
  refine ⟨?_, ?_, ?_, ?_, ?_⟩
  · intro pre host tail h hmin hhost
    rw [strip_scheme_slash h hmin hhost]
  · intro pre post h hmin hpost
    rw [strip_scheme_no_slash h hmin hpost]
  · intro h
    rw [strip_scheme_no_delim h]
  · intro h
    subst h
    decide
  · intro h
    subst h
    decide

/-- C1, at the first example: nothing cached, the user types
"rdp://host.example.com/extra". -/
theorem get_item_rhost_normalised_witness :
    (rhost_prompt_handle.item PAM_RHOST).2 = none ∧
    (get_item rhost_prompt_handle PAM_RHOST).out = Term.ret (some "host.example.com".toList) :=
  ⟨rfl, (get_item_rhost_normalised rhost_prompt_handle
      (conv_answering "rdp://host.example.com/extra".toList)
      "rdp://host.example.com/extra".toList 0 (Or.inr rfl) rfl rfl).1
    "rdp".toList "host.example.com".toList "extra".toList (by decide)
    (strstr_some (by decide :
      strstr "rdp://host.example.com/extra".toList "://".toList = some 3)).2
    (by decide)⟩

/-! ## C5: cached values -/

theorem get_item_conv_calls (pamh : pam_handle_t) (type : Int) (m : pam_message)
    (f : Int → List pam_message → Int × Option pam_response)
    (hu : type = PAM_TYPE_DOMAIN ∨ (pamh.item type).1 ≠ PAM_SUCCESS ∨ (pamh.item type).2 = none)
    (hm : prompt_message type = some m)
    (hc : pamh.conv_item = (PAM_SUCCESS, some ⟨some f⟩)) :
    conv_calls (get_item pamh type).events = [Event.conv 1 [m]] := by
  rw [get_item_uncached pamh type m hu hm]
  simp only [get_item_prompt_events pamh type m f hc]
  by_cases ht : type = PAM_TYPE_DOMAIN <;> simp [ht, conv_calls, is_conv, List.filter]

/-- C9 (amended): when no cached value is used (always for the domain kind, and
for another kind when `pam_get_item` fails or gives a null pointer) and the
framework hands out a conversation function, `get_item` calls that function
exactly once, with exactly one message: the text of the kind in the prompt
table, echo off for the password and echo on for the four other kinds.  When
the framework hands out no conversation function, nothing is prompted and
`get_item` returns `NULL`. -/
theorem get_item_prompts_once (pamh : pam_handle_t) (type : Int)
    (hu : type = PAM_TYPE_DOMAIN ∨ (pamh.item type).1 ≠ PAM_SUCCESS ∨
      (pamh.item type).2 = none) :
    (∀ f, pamh.conv_item = (PAM_SUCCESS, some ⟨some f⟩) →
      (type = PAM_USER → conv_calls (get_item pamh type).events =
        [Event.conv 1 [⟨some "login:".toList, PAM_PROMPT_ECHO_ON⟩]]) ∧
      (type = PAM_RUSER → conv_calls (get_item pamh type).events =
        [Event.conv 1 [⟨some "remote login:".toList, PAM_PROMPT_ECHO_ON⟩]]) ∧
      (type = PAM_RHOST → conv_calls (get_item pamh type).events =
        [Event.conv 1 [⟨some "remote host:".toList, PAM_PROMPT_ECHO_ON⟩]]) ∧
      (type = PAM_TYPE_DOMAIN → conv_calls (get_item pamh type).events =
        [Event.conv 1 [⟨some "domain:".toList, PAM_PROMPT_ECHO_ON⟩]]) ∧
      (type = PAM_AUTHTOK → conv_calls (get_item pamh type).events =
        [Event.conv 1 [⟨some "password:".toList, PAM_PROMPT_ECHO_OFF⟩]])) ∧
    ((pamh.conv_item.1 ≠ PAM_SUCCESS ∨ pamh.conv_item.2 = none ∨
        ∃ c, pamh.conv_item.2 = some c ∧ c.conv = none) →
      (type = PAM_USER ∨ type = PAM_RUSER ∨ type = PAM_RHOST ∨ type = PAM_TYPE_DOMAIN ∨
        type = PAM_AUTHTOK) →
      conv_calls (get_item pamh type).events = [] ∧ (get_item pamh type).out = Term.ret none) := by
  refine ⟨fun f hc => ⟨?_, ?_, ?_, ?_, ?_⟩, ?_⟩
  · intro h; subst h; exact get_item_conv_calls pamh _ _ f hu (by decide) hc
  · intro h; subst h; exact get_item_conv_calls pamh _ _ f hu (by decide) hc
  · intro h; subst h; exact get_item_conv_calls pamh _ _ f hu (by decide) hc
  · intro h; subst h; exact get_item_conv_calls pamh _ _ f hu (by decide) hc
  · intro h; subst h; exact get_item_conv_calls pamh _ _ f hu (by decide) hc
  · intro hc hk
    obtain ⟨m, hm⟩ : ∃ m, prompt_message type = some m := by
      rcases hk with h | h | h | h | h <;> subst h <;> exact ⟨_, rfl⟩
    rw [get_item_uncached pamh type m hu hm, get_item_prompt_no_conv pamh type m hc]
    by_cases ht : type = PAM_TYPE_DOMAIN <;> simp [ht, conv_calls, is_conv, List.filter]

/-- C9 (amended), for the password prompt of a user who types
"rdp://host.example.com/extra". -/
theorem get_item_prompts_once_witness :
    (rhost_prompt_handle.item PAM_AUTHTOK).2 = none ∧
    conv_calls (get_item rhost_prompt_handle PAM_AUTHTOK).events =
      [Event.conv 1 [⟨some "password:".toList, PAM_PROMPT_ECHO_OFF⟩]] :=
  ⟨rfl, ((get_item_prompts_once rhost_prompt_handle PAM_AUTHTOK (Or.inr (Or.inr rfl))).1
    (conv_answering "rdp://host.example.com/extra".toList) rfl).2.2.2.2 rfl⟩

/-- C9 as stated fails when the application registered no conversation
function: no cached username is used, and `get_item` returns `NULL` without a
single call of the conversation function. -/
theorem get_item_without_conv_no_prompt :
    (no_conv_handle.item PAM_USER).2 = none ∧
    get_item no_conv_handle PAM_USER =
      ⟨[Event.pam_get_item PAM_USER, Event.pam_get_item PAM_CONV], Term.ret none⟩ ∧
    conv_calls (get_item no_conv_handle PAM_USER).events = [] := by
  decide

/-! ## C3, C4: the verdict of `pam_sm_authenticate` -/

theorem with_items_acquired (pamh : pam_handle_t)
    (k : CString → CString → CString → CString → CString → Run Int)
    (username ruser rhost rdomain password : CString)
    (h1 : (get_item pamh PAM_USER).out = Term.ret (some username))
    (h2 : (get_item pamh PAM_RUSER).out = Term.ret (some ruser))
    (h3 : (get_item pamh PAM_RHOST).out = Term.ret (some rhost))
    (h4 : (get_item pamh PAM_TYPE_DOMAIN).out = Term.ret (some rdomain))
    (h5 : (get_item pamh PAM_AUTHTOK).out = Term.ret (some password)) :
    with_items pamh k =
      ⟨items_events pamh ++ (k username ruser rhost rdomain password).events,
        (k username ruser rhost rdomain password).out⟩ := by
  unfold with_items items_events
  simp only [Run.bind_eq]
  simp only [Run.bind, h1, h2, h3, h4, h5, List.append_assoc]

theorem auth_parent_out (sys : AuthSys) (pid : Int) (password : CString) :
    (auth_parent sys pid password).out =
      if sys.waitpid_ret < 0 ∨
          to_int32 (to_int32 (0 + sys.write_password_ret) + sys.write_newline_ret) = 0 then
        Term.ret PAM_SYSTEM_ERR
      else if sys.wstatus = 0 then Term.ret PAM_SUCCESS
      else Term.ret PAM_AUTH_ERR := by
  unfold auth_parent
  simp only [Run.bind_eq, Run.bind_call, Run.bind_emit, Run.pure_eq]
  by_cases h1 : sys.waitpid_ret < 0 ∨
      to_int32 (to_int32 (0 + sys.write_password_ret) + sys.write_newline_ret) = 0
  · simp only [h1, if_true, Run.pure_out]
  · simp only [h1, if_false]
    have h2 : ¬ sys.waitpid_ret < 0 := fun h => h1 (Or.inl h)
    simp only [h2, if_false]
    by_cases h3 : sys.wstatus = 0 <;> simp [h3]

theorem auth_body_out (sys : AuthSys) (username ruser rhost rdomain password : CString) :
    (auth_body sys username ruser rhost rdomain password).out =
      if sys.pipe_ret ≠ 0 then Term.ret PAM_SYSTEM_ERR
      else if sys.fork_ret = 0 then (auth_child sys username ruser rhost rdomain).out
      else if sys.fork_ret = -1 then Term.ret PAM_SYSTEM_ERR
      else (auth_parent sys sys.fork_ret password).out := by
  unfold auth_body
  simp only [Run.bind_eq, Run.bind_call, Run.pure_eq]
  by_cases h1 : sys.pipe_ret = 0
  · by_cases h2 : sys.fork_ret = 0
    · simp [h1, h2]
    · by_cases h3 : sys.fork_ret = -1 <;> simp [h1, h2, h3]
  · simp [h1]

theorem to_int32_of_range (x : Int) (h0 : -(2 ^ 31) ≤ x) (h1 : x < 2 ^ 31) : to_int32 x = x := by
  unfold to_int32
  cases x with
  | ofNat n =>
    have hn : n < 2 ^ 31 := by
      have : (n : Int) < 2 ^ 31 := h1
      omega
    simp only [hn, if_true]
  | negSucc n =>
    have hn : n < 2 ^ 31 := by
      have h2 : -(2 ^ 31 : Int) ≤ Int.negSucc n := h0
      rw [Int.negSucc_eq] at h2
      omega
    simp only [hn, if_true]

/-- The conversion to `int` is the two's complement wrap. -/
theorem to_int32_eq_wrap (x : Int) : to_int32 x = (x + 2 ^ 31) % 2 ^ 32 - 2 ^ 31 := by
  by_cases h : -(2 ^ 31) ≤ x ∧ x < 2 ^ 31
  · rw [to_int32_of_range x h.1 h.2, Int.emod_eq_of_lt (by omega) (by omega)]
    omega
  · unfold to_int32
    cases x with
    | ofNat n =>
      have hn : ¬ n < 2 ^ 31 := by
        intro hn
        apply h
        constructor
        · have : (0 : Int) ≤ Int.ofNat n := Int.ofNat_nonneg n
          omega
        · show (n : Int) < 2 ^ 31
          omega
      simp only [hn, if_false]
    | negSucc n =>
      have hn : ¬ n < 2 ^ 31 := by
        intro hn
        apply h
        constructor
        · rw [Int.negSucc_eq]
          omega
        · have : Int.negSucc n < 0 := Int.negSucc_lt_zero n
          omega
      simp only [hn, if_false]

theorem wait_status_exited_eq_zero (code : Nat) (h : code < 256) :
    wait_status_exited code = 0 ↔ code = 0 := by
  unfold wait_status_exited
  rw [Nat.mod_eq_of_lt h]
  omega

/-- C3 (amended): with all five items acquired, `pam_sm_authenticate` returns
`PAM_SYSTEM_ERR` when the pipe cannot be created and when `fork` returns -1;
in the parent (`fork` returned neither 0 nor -1) it returns `PAM_SYSTEM_ERR`
when `waitpid` fails or the `int` sum of the results of the two writes is 0;
when `waitpid` succeeds and that sum is not 0 it returns `PAM_SUCCESS` if and
only if the status word is 0, that is, if and only if the verifier child exits
with status 0, and `PAM_AUTH_ERR` for every non-zero exit status; the sum is
`len + 1`, not 0, when both writes are complete and `len + 1 < 2 ^ 31`. -/
theorem authenticate_verdict (pamh : pam_handle_t) (sys : AuthSys)
    (username ruser rhost rdomain password : CString)
    (h1 : (get_item pamh PAM_USER).out = Term.ret (some username))
    (h2 : (get_item pamh PAM_RUSER).out = Term.ret (some ruser))
    (h3 : (get_item pamh PAM_RHOST).out = Term.ret (some rhost))
    (h4 : (get_item pamh PAM_TYPE_DOMAIN).out = Term.ret (some rdomain))
    (h5 : (get_item pamh PAM_AUTHTOK).out = Term.ret (some password)) :
    (sys.pipe_ret ≠ 0 → (pam_sm_authenticate pamh sys).out = Term.ret PAM_SYSTEM_ERR) ∧
    (sys.pipe_ret = 0 → sys.fork_ret = -1 →
      (pam_sm_authenticate pamh sys).out = Term.ret PAM_SYSTEM_ERR) ∧
    (sys.pipe_ret = 0 → sys.fork_ret ≠ 0 → sys.fork_ret ≠ -1 →
      (sys.waitpid_ret < 0 ∨ bytesout_of sys.write_password_ret sys.write_newline_ret = 0 →
        (pam_sm_authenticate pamh sys).out = Term.ret PAM_SYSTEM_ERR) ∧
      (0 ≤ sys.waitpid_ret → bytesout_of sys.write_password_ret sys.write_newline_ret ≠ 0 →
        ((pam_sm_authenticate pamh sys).out = Term.ret PAM_SUCCESS ↔ sys.wstatus = 0) ∧
        (sys.wstatus ≠ 0 → (pam_sm_authenticate pamh sys).out = Term.ret PAM_AUTH_ERR) ∧
        ∀ code, code < 256 → sys.wstatus = wait_status_exited code →
          ((pam_sm_authenticate pamh sys).out = Term.ret PAM_SUCCESS ↔ code = 0) ∧
          (code ≠ 0 → (pam_sm_authenticate pamh sys).out = Term.ret PAM_AUTH_ERR))) ∧
    (sys.write_password_ret = password.length → sys.write_newline_ret = 1 →
      password.length + 1 < 2 ^ 31 →
      bytesout_of sys.write_password_ret sys.write_newline_ret = password.length + 1 ∧
      bytesout_of sys.write_password_ret sys.write_newline_ret ≠ 0) := by
  unfold pam_sm_authenticate
  rw [with_items_acquired pamh _ username ruser rhost rdomain password h1 h2 h3 h4 h5]
  simp only [auth_body_out, auth_parent_out]
  have hbo : bytesout_of sys.write_password_ret sys.write_newline_ret =
      to_int32 (to_int32 (0 + sys.write_password_ret) + sys.write_newline_ret) := rfl
  rw [hbo]
  refine ⟨?_, ?_, ?_, ?_⟩
  · intro hp
    simp [hp]
  · intro hp hf
    simp [hp, hf]
  · intro hp hf0 hf1
    simp only [hp, hf0, hf1, ne_eq, not_true_eq_false, if_false]
    constructor
    · intro hw
      rw [if_pos hw]
    · intro hw hb
      have hn : ¬ (sys.waitpid_ret < 0 ∨
          to_int32 (to_int32 (0 + sys.write_password_ret) + sys.write_newline_ret) = 0) := by
        rintro (h | h)
        · omega
        · exact hb h
      rw [if_neg hn]
      have key : ∀ (P : Prop) [Decidable P],
          ((if P then Term.ret PAM_SUCCESS else Term.ret PAM_AUTH_ERR : Term Int) =
            Term.ret PAM_SUCCESS ↔ P) ∧
          (¬ P → (if P then Term.ret PAM_SUCCESS else Term.ret PAM_AUTH_ERR : Term Int) =
            Term.ret PAM_AUTH_ERR) := by
        intro P _
        by_cases hP : P
        · simp [hP]
        · simp [hP, PAM_AUTH_ERR, PAM_SUCCESS]
      refine ⟨(key _).1, (key _).2, ?_⟩
      intro code hcode hst
      rw [← wait_status_exited_eq_zero code hcode, ← hst]
      exact ⟨(key _).1, (key _).2⟩
  · intro hw1 hw2 hlen
    have e1 : to_int32 (0 + (password.length : Int)) = password.length :=
      (to_int32_of_range _ (by omega) (by omega)).trans (by omega)
    rw [hw1, hw2, e1, to_int32_of_range _ (by omega) (by omega)]
    exact ⟨rfl, by omega⟩

theorem scenario_items (password : CString) :
    (get_item (scenario_handle password) PAM_USER).out = Term.ret (some "alice".toList) ∧
    (get_item (scenario_handle password) PAM_RUSER).out = Term.ret (some "bob".toList) ∧
    (get_item (scenario_handle password) PAM_RHOST).out = Term.ret (some "10.0.0.5".toList) ∧
    (get_item (scenario_handle password) PAM_TYPE_DOMAIN).out = Term.ret (some "CORP".toList) ∧
    (get_item (scenario_handle password) PAM_AUTHTOK).out = Term.ret (some password) := by
  refine ⟨?_, ?_, ?_, ?_, ?_⟩
  · rw [get_item_cached _ PAM_USER "alice".toList (by decide) rfl]
  · rw [get_item_cached _ PAM_RUSER "bob".toList (by decide) rfl]
  · rw [get_item_cached _ PAM_RHOST "10.0.0.5".toList (by decide) rfl]
  · rw [get_item_uncached _ PAM_TYPE_DOMAIN ⟨some "domain:".toList, PAM_PROMPT_ECHO_ON⟩
      (Or.inl rfl) rfl]
    exact get_item_prompt_answer (scenario_handle password) PAM_TYPE_DOMAIN
      ⟨some "domain:".toList, PAM_PROMPT_ECHO_ON⟩ (conv_answering "CORP".toList)
      "CORP".toList 0 rfl rfl
  · rw [get_item_cached _ PAM_AUTHTOK password (by decide) rfl]

/-- C3 (amended), in the scenario of the specification: password "secret"
written in full, the verifier exits with status 0. -/
theorem authenticate_verdict_witness :
    (pam_sm_authenticate (scenario_handle "secret".toList)
      (auth_sys 6 1 4001 (wait_status_exited 0))).out = Term.ret PAM_SUCCESS :=
  have h := authenticate_verdict (scenario_handle "secret".toList)
    (auth_sys 6 1 4001 (wait_status_exited 0))
    "alice".toList "bob".toList "10.0.0.5".toList "CORP".toList "secret".toList
    (scenario_items _).1 (scenario_items _).2.1 (scenario_items _).2.2.1
    (scenario_items _).2.2.2.1 (scenario_items _).2.2.2.2
  ((((h.2.2.1 rfl (by decide) (by decide)).2 (by decide) (by decide)).2.2 0 (by decide)
    rfl).1).mpr rfl

/-- C3 as stated fails when `waitpid` fails: all five items are acquired, the
pipe and the fork succeed, the verifier child exits with status 0, and the call
returns `PAM_SYSTEM_ERR`. -/
theorem authenticate_waitpid_failure :
    (auth_sys 6 1 (-1) (wait_status_exited 0)).wstatus = wait_status_exited 0 ∧
    (pam_sm_authenticate (scenario_handle "secret".toList)
      (auth_sys 6 1 (-1) (wait_status_exited 0))).out = Term.ret PAM_SYSTEM_ERR ∧
    (pam_sm_authenticate (scenario_handle "secret".toList)
      (auth_sys 6 1 (-1) (wait_status_exited 0))).out ≠ Term.ret PAM_SUCCESS := by
  decide

theorem authenticate_out_acquired (pamh : pam_handle_t) (sys : AuthSys)
    (username ruser rhost rdomain password : CString)
    (h1 : (get_item pamh PAM_USER).out = Term.ret (some username))
    (h2 : (get_item pamh PAM_RUSER).out = Term.ret (some ruser))
    (h3 : (get_item pamh PAM_RHOST).out = Term.ret (some rhost))
    (h4 : (get_item pamh PAM_TYPE_DOMAIN).out = Term.ret (some rdomain))
    (h5 : (get_item pamh PAM_AUTHTOK).out = Term.ret (some password))
    (hp : sys.pipe_ret = 0) (hf : 0 < sys.fork_ret) :
    (pam_sm_authenticate pamh sys).out =
      if sys.waitpid_ret < 0 ∨
          to_int32 (to_int32 (0 + sys.write_password_ret) + sys.write_newline_ret) = 0 then
        Term.ret PAM_SYSTEM_ERR
      else if sys.wstatus = 0 then Term.ret PAM_SUCCESS
      else Term.ret PAM_AUTH_ERR := by
  unfold pam_sm_authenticate
  rw [with_items_acquired pamh _ username ruser rhost rdomain password h1 h2 h3 h4 h5]
  have hf0 : sys.fork_ret ≠ 0 := by omega
  have hf1 : sys.fork_ret ≠ -1 := by omega
  simp only [auth_body_out, auth_parent_out, hp, hf0, hf1, ne_eq, not_true_eq_false, if_false]

/-- C4, evaluated at failing inputs.  The password has 70000 bytes, the first
write is cut short at 65536 bytes and the newline is written, so 65537 bytes
of the 70001 are transferred: the call returns `PAM_SUCCESS` when the child
exits with status 0 and `PAM_AUTH_ERR` when it exits with status 1, not
`PAM_SYSTEM_ERR`.  The same for the password "secret" when 3 of its 6 bytes are
written, and when both writes fail with -1 (`bytesout` is -2, not 0).  The
guard `bytesout == 0` catches a transfer only when the results sum to 0. -/
theorem authenticate_partial_write :
    (65536 : Int) + 1 < ((long_password.length : Nat) : Int) + 1 ∧
    (pam_sm_authenticate (scenario_handle long_password)
      (auth_sys 65536 1 4001 (wait_status_exited 0))).out = Term.ret PAM_SUCCESS ∧
    (pam_sm_authenticate (scenario_handle long_password)
      (auth_sys 65536 1 4001 (wait_status_exited 1))).out = Term.ret PAM_AUTH_ERR ∧
    (pam_sm_authenticate (scenario_handle "secret".toList)
      (auth_sys 3 1 4001 (wait_status_exited 0))).out = Term.ret PAM_SUCCESS ∧
    (pam_sm_authenticate (scenario_handle "secret".toList)
      (auth_sys (-1) (-1) 4001 (wait_status_exited 1))).out = Term.ret PAM_AUTH_ERR ∧
    (pam_sm_authenticate (scenario_handle "secret".toList)
      (auth_sys 0 0 4001 (wait_status_exited 0))).out = Term.ret PAM_SYSTEM_ERR := by
  refine ⟨?_, ?_, ?_, by decide, by decide, by decide⟩
  · unfold long_password
    rw [List.length_replicate]
    norm_num
  · rw [authenticate_out_acquired _ _ _ _ _ _ _ (scenario_items _).1 (scenario_items _).2.1
      (scenario_items _).2.2.1 (scenario_items _).2.2.2.1 (scenario_items _).2.2.2.2 rfl
      (by decide)]
    decide
  · rw [authenticate_out_acquired _ _ _ _ _ _ _ (scenario_items _).1 (scenario_items _).2.1
      (scenario_items _).2.2.1 (scenario_items _).2.2.2.1 (scenario_items _).2.2.2.2 rfl
      (by decide)]
    decide

/-! ## C7: `pam_sm_close_session` -/

/-- C7: with no pid recorded `pam_sm_close_session` returns `PAM_IGNORE`, sends
no signal and leaves the record empty; with a pid `P` recorded it sends
`SIGKILL` to `P` and to nothing else, leaves the record empty, and returns the
same code whatever `kill` returned. -/
theorem close_session_behaviour :
    (∀ kill_ret, pam_sm_close_session kill_ret 0 = ⟨[], Term.ret PAM_IGNORE⟩ ∧
      session_pid_after 0 (pam_sm_close_session kill_ret 0).events = 0) ∧
    (∀ kill_ret P, P ≠ 0 →
      pam_sm_close_session kill_ret P =
        ⟨[Event.kill P SIGKILL kill_ret, Event.store_session_pid 0], Term.ret PAM_IGNORE⟩ ∧
      killed_pids (pam_sm_close_session kill_ret P).events = [P] ∧
      session_pid_after P (pam_sm_close_session kill_ret P).events = 0) ∧
    (∀ k1 k2 P, (pam_sm_close_session k1 P).out = (pam_sm_close_session k2 P).out) := by
  refine ⟨?_, ?_, ?_⟩
  · intro k
    exact ⟨rfl, rfl⟩
  · intro k P hP
    have h : pam_sm_close_session k P =
        ⟨[Event.kill P SIGKILL k, Event.store_session_pid 0], Term.ret PAM_IGNORE⟩ := by
      simp [pam_sm_close_session, reap_stale, hP, Run.pure]
    rw [h]
    exact ⟨rfl, rfl, rfl⟩
  · intro k1 k2 P
    by_cases hP : P = 0 <;> simp [pam_sm_close_session, reap_stale, hP]

/-- C7, with pid 4242 recorded and a `kill` that fails. -/
theorem close_session_behaviour_witness :
    pam_sm_close_session (-1) 4242 =
      ⟨[Event.kill 4242 SIGKILL (-1), Event.store_session_pid 0], Term.ret PAM_IGNORE⟩ ∧
    session_pid_after 4242 (pam_sm_close_session (-1) 4242).events = 0 :=
  ⟨(close_session_behaviour.2.1 (-1) 4242 (by decide)).1,
    (close_session_behaviour.2.1 (-1) 4242 (by decide)).2.2⟩

/-! ## C10: the two `strncpy` calls on `sun_path` -/

theorem store_byte_length (b : SunPath) (off : Nat) (c : Char) :
    (store_byte b off c).field.length = b.field.length := by
  unfold store_byte
  split_ifs <;> simp

theorem strncpy_succ (b : SunPath) (dest : Nat) (src : CString) (n : Nat) :
    strncpy b dest src (n + 1) =
      store_byte (strncpy b dest src n) (dest + n) (src.getD n NUL) := by
  unfold strncpy
  rw [List.range_succ, List.foldl_append]
  rfl

theorem strncpy_length (b : SunPath) (dest : Nat) (src : CString) (n : Nat) :
    (strncpy b dest src n).field.length = b.field.length := by
  induction n with
  | zero => rfl
  | succ m ih => rw [strncpy_succ, store_byte_length, ih]

theorem strncpy_inside (b : SunPath) (dest : Nat) (src : CString) (n : Nat)
    (h : dest + n ≤ b.field.length) : (strncpy b dest src n).outside = b.outside := by
  induction n with
  | zero => rfl
  | succ m ih =>
    rw [strncpy_succ]
    unfold store_byte
    rw [if_pos (by rw [strncpy_length]; omega)]
    exact ih (by omega)

theorem strncpy_outside (b : SunPath) (dest : Nat) (src : CString) (n : Nat)
    (hn : 0 < n) (h : b.field.length < dest + n) : (strncpy b dest src n).outside ≠ [] := by
  cases n with
  | zero => omega
  | succ m =>
    rw [strncpy_succ]
    unfold store_byte
    rw [if_neg (by rw [strncpy_length]; omega)]
    simp

/-- Lines 254-255 store nothing outside a field of `N` bytes exactly when the
home directory has at most one character. -/
theorem build_sun_path_outside (N : Nat) (h : CString) (hN : 2 ≤ N) :
    (build_sun_path N h).outside = [] ↔ h.length ≤ 1 := by
  unfold build_sun_path
  simp only []
  have h1 : (strncpy ⟨List.replicate N NUL, []⟩ 0 h (N - 1)).outside = [] :=
    strncpy_inside _ _ _ _ (by simp)
  have hl : (strncpy ⟨List.replicate N NUL, []⟩ 0 h (N - 1)).field.length = N := by
    rw [strncpy_length]
    simp
  constructor
  · intro ho
    by_contra hlen
    exact strncpy_outside _ h.length "/.freerdp-socket".toList (N - 1) (by omega)
      (by rw [hl]; omega) ho
  · intro hlen
    rw [strncpy_inside _ _ _ _ (by rw [hl]; omega), h1]

set_option maxRecDepth 100000 in
/-- C10, evaluated at the failing input: for the home directory "/home/alice"
(11 bytes, 11 + 16 < 108) the field ends up holding
"/home/alice/.freerdp-socket" and a zero byte, but the second `strncpy` stores
107 bytes from offset 11 on, and the last ten of them fall on offsets 108 to
117, past the last byte of `sun_path`.  In general, for a field of `N ≥ 2`
bytes, no store falls outside the field exactly when the home directory has at
most one character. -/
theorem build_sun_path_overflow :
    "/home/alice".toList.length + "/.freerdp-socket".toList.length < SUN_PATH_SIZE ∧
    (build_sun_path SUN_PATH_SIZE "/home/alice".toList).field.take 28 =
      "/home/alice/.freerdp-socket".toList ++ [NUL] ∧
    (build_sun_path SUN_PATH_SIZE "/home/alice".toList).outside =
      [108, 109, 110, 111, 112, 113, 114, 115, 116, 117] ∧
    (∀ (N : Nat) (h : CString), 2 ≤ N →
      ((build_sun_path N h).outside = [] ↔ h.length ≤ 1)) :=
  ⟨by decide, by decide, by decide, build_sun_path_outside⟩

/-- C10, for the home directory "/home/alice" and the 108 bytes of `sun_path`:
some store falls outside the field. -/
theorem build_sun_path_overflow_witness :
    2 ≤ SUN_PATH_SIZE ∧ ¬ "/home/alice".toList.length ≤ 1 ∧
    (build_sun_path SUN_PATH_SIZE "/home/alice".toList).outside ≠ [] :=
  ⟨by decide, by decide, fun ho =>
    absurd ((build_sun_path_overflow.2.2.2 SUN_PATH_SIZE "/home/alice".toList (by decide)).mp ho)
      (by decide)⟩

/-! ## Shape of the runs of `get_item` and of the five `GET_ITEM` lines -/

theorem get_item_shape (pamh : pam_handle_t) (type : Int) :
    (∀ e ∈ (get_item pamh type).events, is_item_event e = true) ∧
    ((∃ v, (get_item pamh type).out = Term.ret v) ∨ (get_item pamh type).out = Term.fault) := by
  unfold get_item
  have hp : ∀ m, (∀ e ∈ (get_item_prompt pamh type m).events, is_item_event e = true) ∧
      ((∃ v, (get_item_prompt pamh type m).out = Term.ret v) ∨
        (get_item_prompt pamh type m).out = Term.fault) := by
    intro m
    rcases get_item_prompt_shape pamh type m with ⟨he, ho⟩ | ⟨he, ho⟩
    · rw [he, ho]
      exact ⟨by simp [is_item_event], Or.inl ⟨_, rfl⟩⟩
    · rw [he]
      exact ⟨by simp [is_item_event], ho⟩
  by_cases ht : type = PAM_TYPE_DOMAIN
  · simp only [ht, ne_eq, not_true_eq_false, if_false, Run.pure_eq, Run.bind_eq, Run.bind_pure]
    rw [← ht]
    cases hm : prompt_message type with
    | none => exact ⟨by simp, Or.inl ⟨_, rfl⟩⟩
    | some m => exact hp m
  · rcases hi : pamh.item type with ⟨rc, value⟩
    simp only [ht, ne_eq, not_false_eq_true, if_true, Run.pure_eq, Run.bind_eq, Run.bind_call]
    by_cases hrc : rc = PAM_SUCCESS
    · cases value with
      | some v =>
        simp only [hrc, if_true, Run.pure_events, Run.pure_out, Run.bind_mk_ret]
        exact ⟨by simp [is_item_event], Or.inl ⟨_, rfl⟩⟩
      | none =>
        simp only [hrc, if_true, Run.pure_events, Run.pure_out, Run.bind_mk_ret]
        cases hm : prompt_message type with
        | none => exact ⟨by simp [is_item_event], Or.inl ⟨_, rfl⟩⟩
        | some m =>
          refine ⟨?_, (hp m).2⟩
          intro e he
          simp only [List.append_nil, List.singleton_append, List.mem_cons] at he
          rcases he with rfl | he
          · rfl
          · exact (hp m).1 e he
    · simp only [hrc, if_false, Run.pure_events, Run.pure_out, Run.bind_mk_ret]
      cases hm : prompt_message type with
      | none => exact ⟨by simp [is_item_event], Or.inl ⟨_, rfl⟩⟩
      | some m =>
        refine ⟨?_, (hp m).2⟩
        intro e he
        simp only [List.append_nil, List.singleton_append, List.mem_cons] at he
        rcases he with rfl | he
        · rfl
        · exact (hp m).1 e he

/-- The three ways the five `GET_ITEM` lines can end: an item is missing
(`PAM_AUTH_ERR`), a null response is dereferenced, or all five are there and
the rest of the function runs. -/
theorem with_items_shape (pamh : pam_handle_t)
    (k : CString → CString → CString → CString → CString → Run Int) :
    ∃ evs, (∀ e ∈ evs, is_item_event e = true) ∧
      (with_items pamh k = ⟨evs, Term.ret PAM_AUTH_ERR⟩ ∨
       with_items pamh k = ⟨evs, Term.fault⟩ ∨
       ∃ username ruser rhost rdomain password,
        (get_item pamh PAM_USER).out = Term.ret (some username) ∧
        (get_item pamh PAM_RUSER).out = Term.ret (some ruser) ∧
        (get_item pamh PAM_RHOST).out = Term.ret (some rhost) ∧
        (get_item pamh PAM_TYPE_DOMAIN).out = Term.ret (some rdomain) ∧
        (get_item pamh PAM_AUTHTOK).out = Term.ret (some password) ∧
        with_items pamh k =
          ⟨evs ++ (k username ruser rhost rdomain password).events,
            (k username ruser rhost rdomain password).out⟩) := by
  have e1 := (get_item_shape pamh PAM_USER).1
  have e2 := (get_item_shape pamh PAM_RUSER).1
  have e3 := (get_item_shape pamh PAM_RHOST).1
  have e4 := (get_item_shape pamh PAM_TYPE_DOMAIN).1
  have e5 := (get_item_shape pamh PAM_AUTHTOK).1
  have mem2 : ∀ {a b : List Event}, (∀ e ∈ a, is_item_event e = true) →
      (∀ e ∈ b, is_item_event e = true) → ∀ e ∈ a ++ b, is_item_event e = true := by
    intro a b ha hb e he
    rcases List.mem_append.mp he with h | h
    · exact ha e h
    · exact hb e h
  unfold with_items
  simp only [Run.bind_eq, Run.pure_eq]
  rcases (get_item_shape pamh PAM_USER).2 with ⟨v1, h1⟩ | h1
  swap
  · exact ⟨_, e1, Or.inr (Or.inl (by simp only [Run.bind, h1]))⟩
  cases v1 with
  | none => exact ⟨_ ++ [], mem2 e1 (by simp), Or.inl (by simp only [Run.bind, h1]; rfl)⟩
  | some username =>
  rcases (get_item_shape pamh PAM_RUSER).2 with ⟨v2, h2⟩ | h2
  swap
  · exact ⟨_, mem2 e1 e2, Or.inr (Or.inl (by simp only [Run.bind, h1, h2]))⟩
  cases v2 with
  | none =>
    exact ⟨_ ++ (_ ++ []), mem2 e1 (mem2 e2 (by simp)),
      Or.inl (by simp only [Run.bind, h1, h2]; rfl)⟩
  | some ruser =>
  rcases (get_item_shape pamh PAM_RHOST).2 with ⟨v3, h3⟩ | h3
  swap
  · exact ⟨_, mem2 e1 (mem2 e2 e3), Or.inr (Or.inl (by simp only [Run.bind, h1, h2, h3]))⟩
  cases v3 with
  | none =>
    exact ⟨_ ++ (_ ++ (_ ++ [])), mem2 e1 (mem2 e2 (mem2 e3 (by simp))),
      Or.inl (by simp only [Run.bind, h1, h2, h3]; rfl)⟩
  | some rhost =>
  rcases (get_item_shape pamh PAM_TYPE_DOMAIN).2 with ⟨v4, h4⟩ | h4
  swap
  · exact ⟨_, mem2 e1 (mem2 e2 (mem2 e3 e4)),
      Or.inr (Or.inl (by simp only [Run.bind, h1, h2, h3, h4]))⟩
  cases v4 with
  | none =>
    exact ⟨_ ++ (_ ++ (_ ++ (_ ++ []))), mem2 e1 (mem2 e2 (mem2 e3 (mem2 e4 (by simp)))),
      Or.inl (by simp only [Run.bind, h1, h2, h3, h4]; rfl)⟩
  | some rdomain =>
  rcases (get_item_shape pamh PAM_AUTHTOK).2 with ⟨v5, h5⟩ | h5
  swap
  · exact ⟨_, mem2 e1 (mem2 e2 (mem2 e3 (mem2 e4 e5))),
      Or.inr (Or.inl (by simp only [Run.bind, h1, h2, h3, h4, h5]))⟩
  cases v5 with
  | none =>
    exact ⟨_ ++ (_ ++ (_ ++ (_ ++ (_ ++ [])))),
      mem2 e1 (mem2 e2 (mem2 e3 (mem2 e4 (mem2 e5 (by simp))))),
      Or.inl (by simp only [Run.bind, h1, h2, h3, h4, h5]; rfl)⟩
  | some password =>
    refine ⟨items_events pamh, ?_, Or.inr (Or.inr ⟨username, ruser, rhost, rdomain, password,
      h1, h2, h3, h4, h5, ?_⟩)⟩
    · unfold items_events
      intro e he
      simp only [List.mem_append] at he
      rcases he with (((h | h) | h) | h) | h
      · exact e1 e h
      · exact e2 e h
      · exact e3 e h
      · exact e4 e h
      · exact e5 e h
    · unfold items_events
      simp only [Run.bind, h1, h2, h3, h4, h5, List.append_assoc]

theorem drop_privileges_eq (pw : passwd) (d : DropRets) :
    drop_privileges pw d =
      if d.setgid_ret < 0 then ⟨[Event.setgid pw.pw_gid d.setgid_ret], Term.ret true⟩
      else if d.setuid_ret < 0 then
        ⟨[Event.setgid pw.pw_gid d.setgid_ret, Event.setuid pw.pw_uid d.setuid_ret],
          Term.ret true⟩
      else if d.setegid_ret < 0 then
        ⟨[Event.setgid pw.pw_gid d.setgid_ret, Event.setuid pw.pw_uid d.setuid_ret,
          Event.setegid pw.pw_gid d.setegid_ret], Term.ret true⟩
      else
        ⟨[Event.setgid pw.pw_gid d.setgid_ret, Event.setuid pw.pw_uid d.setuid_ret,
          Event.setegid pw.pw_gid d.setegid_ret, Event.seteuid pw.pw_uid d.seteuid_ret],
          Term.ret (decide (d.seteuid_ret < 0))⟩ := by
  unfold drop_privileges
  simp only [Run.bind_eq, Run.bind_call, Run.pure_eq]
  by_cases h1 : d.setgid_ret < 0
  · simp [h1, Run.pure]
  · by_cases h2 : d.setuid_ret < 0
    · simp [h1, h2, Run.pure]
    · by_cases h3 : d.setegid_ret < 0
      · simp [h1, h2, h3, Run.pure]
      · by_cases h4 : d.seteuid_ret < 0 <;> simp [h1, h2, h3, h4, Run.pure]

/-- The deliverer child, flattened: the events of the privilege drop, then
`listen`, `accept`, the single `write`, the two `close` calls. -/
theorem deliverer_child_eq (sys : SessionSys) (pw : passwd) (socketfd : Int)
    (buffer : List Char) (buffer_len : Int) :
    deliverer_child sys pw socketfd buffer buffer_len =
      if (drop_privileges pw sys.drop).out = Term.ret false then
        if sys.listen_ret < 0 then
          ⟨(drop_privileges pw sys.drop).events ++ [Event.listen socketfd 1 sys.listen_ret],
            Term.exit EXIT_FAILURE⟩
        else if sys.accept_ret < 0 then
          ⟨(drop_privileges pw sys.drop).events ++ [Event.listen socketfd 1 sys.listen_ret,
            Event.accept socketfd sys.accept_ret], Term.exit EXIT_FAILURE⟩
        else
          ⟨(drop_privileges pw sys.drop).events ++ [Event.listen socketfd 1 sys.listen_ret,
            Event.accept socketfd sys.accept_ret,
            Event.write sys.accept_ret (buffer.take buffer_len.toNat) sys.write_ret,
            Event.close sys.accept_ret, Event.close socketfd],
            Term.exit (if to_int32 sys.write_ret = buffer_len then 0 else EXIT_FAILURE)⟩
      else ⟨(drop_privileges pw sys.drop).events, Term.exit EXIT_FAILURE⟩ := by
  unfold deliverer_child
  rw [drop_privileges_eq]
  simp only [Run.bind_eq]
  by_cases h1 : sys.drop.setgid_ret < 0
  · simp [h1]
  · by_cases h2 : sys.drop.setuid_ret < 0
    · simp [h1, h2]
    · by_cases h3 : sys.drop.setegid_ret < 0
      · simp [h1, h2, h3]
      · by_cases h4 : sys.drop.seteuid_ret < 0
        · simp [h1, h2, h3, h4]
        · by_cases h5 : sys.listen_ret < 0
          · simp [h1, h2, h3, h4, h5]
          · by_cases h6 : sys.accept_ret < 0
            · simp [h1, h2, h3, h4, h5, h6]
            · by_cases h7 : to_int32 sys.write_ret = buffer_len <;>
                simp [h1, h2, h3, h4, h5, h6, h7]

theorem buffer_len_of_eq (ruser rhost rdomain password : CString)
    (h : ruser.length + rhost.length + rdomain.length + password.length + 4 < 2 ^ 31) :
    buffer_len_of ruser rhost rdomain password =
      ((ruser.length + rhost.length + rdomain.length + password.length + 4 : Nat) : Int) := by
  unfold buffer_len_of
  simp only []
  have e1 : to_int32 (0 + ((ruser.length : Int) + 1)) = ruser.length + 1 :=
    (to_int32_of_range _ (by omega) (by omega)).trans (by omega)
  rw [e1]
  have e2 : to_int32 ((ruser.length : Int) + 1 + ((rhost.length : Int) + 1)) =
      ruser.length + rhost.length + 2 :=
    (to_int32_of_range _ (by omega) (by omega)).trans (by omega)
  rw [e2]
  have e3 : to_int32 ((ruser.length : Int) + rhost.length + 2 + ((rdomain.length : Int) + 1)) =
      ruser.length + rhost.length + rdomain.length + 3 :=
    (to_int32_of_range _ (by omega) (by omega)).trans (by omega)
  rw [e3]
  rw [to_int32_of_range _ (by omega) (by omega)]
  push_cast
  omega

theorem session_fork_eq (sys : SessionSys) (pw : passwd) (socketfd : Int)
    (ruser rhost rdomain password : CString) :
    session_fork sys pw socketfd ruser rhost rdomain password =
      if buffer_len_of ruser rhost rdomain password < 0 then ⟨[], Term.fault⟩
      else if sys.fork_ret = 0 then
        ⟨Event.fork sys.fork_ret :: (deliverer_child sys pw socketfd
            (snprintf (buffer_len_of ruser rhost rdomain password).toNat
              (ruser ++ " ".toList ++ password ++ " ".toList ++ rdomain ++ " ".toList ++ rhost))
            (buffer_len_of ruser rhost rdomain password)).events,
          (deliverer_child sys pw socketfd
            (snprintf (buffer_len_of ruser rhost rdomain password).toNat
              (ruser ++ " ".toList ++ password ++ " ".toList ++ rdomain ++ " ".toList ++ rhost))
            (buffer_len_of ruser rhost rdomain password)).out⟩
      else if sys.fork_ret < 0 then
        ⟨[Event.fork sys.fork_ret, Event.close socketfd], Term.ret PAM_SYSTEM_ERR⟩
      else
        ⟨[Event.fork sys.fork_ret, Event.store_session_pid sys.fork_ret],
          Term.ret PAM_SUCCESS⟩ := by
  unfold session_fork
  simp only [Run.bind_eq, Run.pure_eq]
  by_cases h1 : buffer_len_of ruser rhost rdomain password < 0
  · simp [h1, Run.fault]
  · by_cases h2 : sys.fork_ret = 0
    · simp [h1, h2]
    · by_cases h3 : sys.fork_ret < 0 <;> simp [h1, h2, h3]

theorem run_cons5 {α : Type} (a b c d e : Event) (sf : Run α) :
    (⟨a :: b :: c :: d :: e :: sf.events, sf.out⟩ : Run α) =
      ⟨[a, b, c, d, e] ++ sf.events, sf.out⟩ :=
  rfl

seal session_fork in
theorem session_body_eq (sys : SessionSys) (username ruser rhost rdomain password : CString) :
    session_body sys username ruser rhost rdomain password =
      match sys.getpwnam username with
      | none => ⟨[Event.getpwnam username], Term.ret PAM_SYSTEM_ERR⟩
      | some pw =>
        if sys.socket_ret < 0 then
          ⟨[Event.getpwnam username, Event.socket sys.socket_ret], Term.ret PAM_SYSTEM_ERR⟩
        else
          match sun_path_string pw.pw_dir with
          | none => ⟨[Event.getpwnam username, Event.socket sys.socket_ret], Term.fault⟩
          | some sun_path =>
            if sys.bind_ret < 0 then
              ⟨[Event.getpwnam username, Event.socket sys.socket_ret,
                Event.bind sys.socket_ret sun_path sys.bind_ret, Event.close sys.socket_ret],
                Term.ret PAM_SYSTEM_ERR⟩
            else if sys.chmod_ret ≠ 0 then
              ⟨[Event.getpwnam username, Event.socket sys.socket_ret,
                Event.bind sys.socket_ret sun_path sys.bind_ret,
                Event.chmod sun_path (S_IRUSR ||| S_IWUSR) sys.chmod_ret,
                Event.close sys.socket_ret], Term.ret PAM_SYSTEM_ERR⟩
            else if sys.chown_ret ≠ 0 then
              ⟨[Event.getpwnam username, Event.socket sys.socket_ret,
                Event.bind sys.socket_ret sun_path sys.bind_ret,
                Event.chmod sun_path (S_IRUSR ||| S_IWUSR) sys.chmod_ret,
                Event.chown sun_path pw.pw_uid pw.pw_gid sys.chown_ret,
                Event.close sys.socket_ret], Term.ret PAM_SYSTEM_ERR⟩
            else
              ⟨[Event.getpwnam username, Event.socket sys.socket_ret,
                Event.bind sys.socket_ret sun_path sys.bind_ret,
                Event.chmod sun_path (S_IRUSR ||| S_IWUSR) sys.chmod_ret,
                Event.chown sun_path pw.pw_uid pw.pw_gid sys.chown_ret] ++
                (session_fork sys pw sys.socket_ret ruser rhost rdomain password).events,
                (session_fork sys pw sys.socket_ret ruser rhost rdomain password).out⟩ := by
  unfold session_body
  simp only [Run.bind_eq, Run.bind_call, Run.pure_eq]
  cases hpw : sys.getpwnam username with
  | none => simp only [Run.bind_emit, Run.pure_events, Run.pure_out, Run.fault_events, Run.fault_out, List.cons_append, List.nil_append, Run.pure, Run.fault]
  | some pw =>
    by_cases h1 : sys.socket_ret < 0
    · simp only [h1, if_true]
      simp only [Run.bind_emit, Run.pure_events, Run.pure_out, Run.fault_events, Run.fault_out, List.cons_append, List.nil_append, Run.pure, Run.fault]
    · simp only [h1, if_false]
      cases hf : sun_path_string pw.pw_dir with
      | none =>
        simp only [hf]
        simp only [Run.bind_emit, Run.pure_events, Run.pure_out, Run.fault_events, Run.fault_out, List.cons_append, List.nil_append, Run.pure, Run.fault]
      | some sun_path =>
        simp only [hf]
        by_cases h2 : sys.bind_ret < 0
        · simp only [h2, if_true]
          simp only [Run.bind_emit, Run.pure_events, Run.pure_out, Run.fault_events, Run.fault_out, List.cons_append, List.nil_append, Run.pure, Run.fault]
        · simp only [h2, if_false]
          by_cases h3 : sys.chmod_ret = 0
          · simp only [h3, ne_eq, not_true_eq_false, if_false]
            by_cases h4 : sys.chown_ret = 0
            · simp only [h4, ne_eq, not_true_eq_false, if_false]
              exact run_cons5 _ _ _ _ _ _
            · simp only [h4, ne_eq, not_false_eq_true, if_true]
              simp only [Run.bind_emit, Run.pure_events, Run.pure_out, Run.fault_events, Run.fault_out, List.cons_append, List.nil_append, Run.pure, Run.fault]
          · simp only [h3, ne_eq, not_false_eq_true, if_true]
            simp only [Run.bind_emit, Run.pure_events, Run.pure_out, Run.fault_events, Run.fault_out, List.cons_append, List.nil_append, Run.pure, Run.fault]

theorem open_session_eq (pamh : pam_handle_t) (sys : SessionSys) (session_pid : Int) :
    pam_sm_open_session pamh sys session_pid =
      ⟨(if session_pid ≠ 0 then
          [Event.kill session_pid SIGKILL sys.kill_ret, Event.store_session_pid 0]
        else []) ++ (with_items pamh (session_body sys)).events,
        (with_items pamh (session_body sys)).out⟩ := by
  unfold pam_sm_open_session reap_stale
  by_cases h : session_pid = 0 <;> simp [h, Run.eta]

/-! ## C2: the bytes of the credential bundle -/

theorem bytes_written_write_calls (fd : Int) (l : List Event) :
    bytes_written fd l = bytes_written fd (write_calls l) := by
  induction l with
  | nil => rfl
  | cons e t ih =>
    cases e <;> simp [bytes_written, write_calls, List.filter, is_write] at ih ⊢ <;> exact ih

theorem write_calls_append (a b : List Event) :
    write_calls (a ++ b) = write_calls a ++ write_calls b := by
  simp [write_calls]

theorem write_calls_items (l : List Event) (h : ∀ e ∈ l, is_item_event e = true) :
    write_calls l = [] := by
  unfold write_calls
  rw [List.filter_eq_nil_iff]
  intro e he
  have := h e he
  cases e <;> simp_all [is_item_event, is_write]

theorem write_calls_drop (pw : passwd) (d : DropRets) :
    write_calls (drop_privileges pw d).events = [] := by
  rw [drop_privileges_eq]
  split_ifs <;> rfl

theorem snprintf_full (text : List Char) : snprintf (text.length + 1) text = text ++ [NUL] := by
  simp [snprintf]

theorem write_calls_deliverer (sys : SessionSys) (pw : passwd) (socketfd : Int)
    (buffer : List Char) (buffer_len : Int) :
    write_calls (deliverer_child sys pw socketfd buffer buffer_len).events = [] ∨
    write_calls (deliverer_child sys pw socketfd buffer buffer_len).events =
      [Event.write sys.accept_ret (buffer.take buffer_len.toNat) sys.write_ret] := by
  rw [deliverer_child_eq]
  split_ifs
  · left
    simp only [write_calls_append, write_calls_drop]
    rfl
  · left
    simp only [write_calls_append, write_calls_drop]
    rfl
  · right
    simp only [write_calls_append, write_calls_drop]
    rfl
  · right
    simp only [write_calls_append, write_calls_drop]
    rfl
  · left
    exact write_calls_drop _ _

theorem write_calls_session_fork (sys : SessionSys) (pw : passwd) (socketfd : Int)
    (ruser rhost rdomain password : CString)
    (h : ruser.length + rhost.length + rdomain.length + password.length + 4 < 2 ^ 31) :
    write_calls (session_fork sys pw socketfd ruser rhost rdomain password).events = [] ∨
    write_calls (session_fork sys pw socketfd ruser rhost rdomain password).events =
      [Event.write sys.accept_ret (bundle_of_spec ruser password rdomain rhost ++ [NUL])
        sys.write_ret] := by
  rw [session_fork_eq, buffer_len_of_eq _ _ _ _ h]
  have hlen : (ruser ++ " ".toList ++ password ++ " ".toList ++ rdomain ++ " ".toList ++
      rhost).length + 1 = ruser.length + rhost.length + rdomain.length + password.length + 4 := by
    simp
    omega
  have hbuf : snprintf (ruser.length + rhost.length + rdomain.length + password.length + 4)
      (ruser ++ " ".toList ++ password ++ " ".toList ++ rdomain ++ " ".toList ++ rhost) =
      bundle_of_spec ruser password rdomain rhost ++ [NUL] := by
    rw [← hlen, snprintf_full]
    rfl
  have htake : (bundle_of_spec ruser password rdomain rhost ++ [NUL]).take
      (ruser.length + rhost.length + rdomain.length + password.length + 4) =
      bundle_of_spec ruser password rdomain rhost ++ [NUL] := by
    apply List.take_of_length_le
    simp [bundle_of_spec]
    omega
  simp only [Int.toNat_ofNat, hbuf]
  split_ifs
  · omega
  · rcases write_calls_deliverer sys pw socketfd
      (bundle_of_spec ruser password rdomain rhost ++ [NUL])
      ((ruser.length + rhost.length + rdomain.length + password.length + 4 : Nat) : Int)
      with hw | hw
    · left
      show write_calls ([Event.fork sys.fork_ret] ++ _) = []
      rw [write_calls_append, hw]
      rfl
    · right
      show write_calls ([Event.fork sys.fork_ret] ++ _) = _
      rw [write_calls_append, hw, Int.toNat_ofNat, htake]
      rfl
  · left; rfl
  · left; rfl

theorem write_calls_session_body (sys : SessionSys)
    (username ruser rhost rdomain password : CString)
    (h : ruser.length + rhost.length + rdomain.length + password.length + 4 < 2 ^ 31) :
    write_calls (session_body sys username ruser rhost rdomain password).events = [] ∨
    write_calls (session_body sys username ruser rhost rdomain password).events =
      [Event.write sys.accept_ret (bundle_of_spec ruser password rdomain rhost ++ [NUL])
        sys.write_ret] := by
  rw [session_body_eq]
  cases sys.getpwnam username with
  | none => left; rfl
  | some pw =>
    simp only []
    by_cases hs : sys.socket_ret < 0
    · simp only [hs, if_true]
      left; rfl
    · simp only [hs, if_false]
      cases sun_path_string pw.pw_dir with
      | none => left; rfl
      | some sun_path =>
        simp only []
        by_cases hb : sys.bind_ret < 0
        · simp only [hb, if_true]
          left; rfl
        · simp only [hb, if_false]
          by_cases hm : sys.chmod_ret = 0
          · simp only [hm, ne_eq, not_true_eq_false, if_false]
            by_cases ho : sys.chown_ret = 0
            · simp only [ho, ne_eq, not_true_eq_false, if_false]
              rcases write_calls_session_fork sys pw sys.socket_ret ruser rhost rdomain password
                h with hw | hw
              · left
                simp only [write_calls_append, hw]
                rfl
              · right
                simp only [write_calls_append, hw]
                rfl
            · simp only [ho, ne_eq, not_false_eq_true, if_true]
              left; rfl
          · simp only [hm, ne_eq, not_false_eq_true, if_true]
            left; rfl

/-- At most one `write` happens during `pam_sm_open_session`, and it hands over
the bundle followed by the terminating NUL of the buffer. -/
theorem write_calls_open_session (pamh : pam_handle_t) (sys : SessionSys) (session_pid : Int)
    (username ruser rhost rdomain password : CString)
    (h1 : (get_item pamh PAM_USER).out = Term.ret (some username))
    (h2 : (get_item pamh PAM_RUSER).out = Term.ret (some ruser))
    (h3 : (get_item pamh PAM_RHOST).out = Term.ret (some rhost))
    (h4 : (get_item pamh PAM_TYPE_DOMAIN).out = Term.ret (some rdomain))
    (h5 : (get_item pamh PAM_AUTHTOK).out = Term.ret (some password))
    (h : ruser.length + rhost.length + rdomain.length + password.length + 4 < 2 ^ 31) :
    write_calls (pam_sm_open_session pamh sys session_pid).events = [] ∨
    write_calls (pam_sm_open_session pamh sys session_pid).events =
      [Event.write sys.accept_ret (bundle_of_spec ruser password rdomain rhost ++ [NUL])
        sys.write_ret] := by
  rw [open_session_eq, with_items_acquired pamh _ username ruser rhost rdomain password
    h1 h2 h3 h4 h5]
  have hR : write_calls (if session_pid ≠ 0 then
      [Event.kill session_pid SIGKILL sys.kill_ret, Event.store_session_pid 0] else []) = [] := by
    split_ifs <;> rfl
  have hI : write_calls (items_events pamh) = [] := by
    apply write_calls_items
    unfold items_events
    intro e he
    simp only [List.mem_append] at he
    rcases he with (((h | h) | h) | h) | h
    · exact (get_item_shape pamh _).1 e h
    · exact (get_item_shape pamh _).1 e h
    · exact (get_item_shape pamh _).1 e h
    · exact (get_item_shape pamh _).1 e h
    · exact (get_item_shape pamh _).1 e h
  simp only [write_calls_append, hR, hI, List.nil_append]
  exact write_calls_session_body sys username ruser rhost rdomain password h

/-! ## Core events of a run -/

theorem core_events_append (a b : List Event) :
    core_events (a ++ b) = core_events a ++ core_events b := by
  simp [core_events]

theorem core_events_cons_neutral (e : Event) (l : List Event) (h : is_neutral e = true) :
    core_events (e :: l) = core_events l := by
  simp [core_events, List.filter, h]

theorem core_events_cons_core (e : Event) (l : List Event) (h : is_neutral e = false) :
    core_events (e :: l) = e :: core_events l := by
  simp [core_events, List.filter, h]

theorem core_events_neutral (l : List Event) (h : ∀ e ∈ l, is_neutral e = true) :
    core_events l = [] := by
  unfold core_events
  rw [List.filter_eq_nil_iff]
  intro e he
  simp [h e he]

theorem core_events_cons (e : Event) (l : List Event) :
    core_events (e :: l) = if is_neutral e then core_events l else e :: core_events l := by
  cases h : is_neutral e <;> simp [core_events, List.filter, h]

theorem fs_after_cons (cr : Creator) (fs : FS) (e : Event) (l : List Event) :
    fs_after cr fs (e :: l) = fs_after cr (fs_event cr fs e) l := rfl

theorem fs_after_core (cr : Creator) (fs : FS) (l : List Event) :
    fs_after cr fs l = fs_after cr fs (core_events l) := by
  induction l generalizing fs with
  | nil => rfl
  | cons e t ih =>
    cases e <;> rw [core_events_cons] <;>
      simp only [is_neutral, if_true, if_false, Bool.false_eq_true, fs_after_cons, fs_event, ih]

theorem item_event_neutral (e : Event) (h : is_item_event e = true) : is_neutral e = true := by
  cases e <;> simp_all [is_item_event, is_neutral]

theorem core_events_items (l : List Event) (h : ∀ e ∈ l, is_item_event e = true) :
    core_events l = [] :=
  core_events_neutral l (fun e he => item_event_neutral e (h e he))

theorem core_events_drop (pw : passwd) (d : DropRets) :
    core_events (drop_privileges pw d).events = [] := by
  rw [drop_privileges_eq]
  split_ifs <;> rfl

theorem deliverer_child_core (sys : SessionSys) (pw : passwd) (socketfd : Int)
    (buffer : List Char) (buffer_len : Int) :
    core_events (deliverer_child sys pw socketfd buffer buffer_len).events = [] ∧
    ∃ code, (deliverer_child sys pw socketfd buffer buffer_len).out = Term.exit code := by
  rw [deliverer_child_eq]
  split_ifs <;> simp only [core_events_append, core_events_drop] <;>
    first | exact ⟨rfl, _, rfl⟩ | exact ⟨trivial, _, rfl⟩

theorem session_fork_core (sys : SessionSys) (pw : passwd) (socketfd : Int)
    (ruser rhost rdomain password : CString) :
    ((session_fork sys pw socketfd ruser rhost rdomain password).out = Term.fault ∧
      core_events (session_fork sys pw socketfd ruser rhost rdomain password).events = []) ∨
    (sys.fork_ret = 0 ∧
      (∃ code, (session_fork sys pw socketfd ruser rhost rdomain password).out = Term.exit code) ∧
      core_events (session_fork sys pw socketfd ruser rhost rdomain password).events =
        [Event.fork sys.fork_ret]) ∨
    (sys.fork_ret < 0 ∧
      (session_fork sys pw socketfd ruser rhost rdomain password).out =
        Term.ret PAM_SYSTEM_ERR ∧
      core_events (session_fork sys pw socketfd ruser rhost rdomain password).events =
        [Event.fork sys.fork_ret]) ∨
    (0 < sys.fork_ret ∧
      (session_fork sys pw socketfd ruser rhost rdomain password).out = Term.ret PAM_SUCCESS ∧
      core_events (session_fork sys pw socketfd ruser rhost rdomain password).events =
        [Event.fork sys.fork_ret, Event.store_session_pid sys.fork_ret]) := by
  rw [session_fork_eq]
  by_cases hb : buffer_len_of ruser rhost rdomain password < 0
  · rw [if_pos hb]
    exact Or.inl ⟨rfl, rfl⟩
  · rw [if_neg hb]
    by_cases hf : sys.fork_ret = 0
    · rw [if_pos hf]
      right; left
      obtain ⟨hc, code, hcode⟩ := deliverer_child_core sys pw socketfd
        (snprintf (buffer_len_of ruser rhost rdomain password).toNat
          (ruser ++ " ".toList ++ password ++ " ".toList ++ rdomain ++ " ".toList ++ rhost))
        (buffer_len_of ruser rhost rdomain password)
      refine ⟨hf, ⟨code, hcode⟩, ?_⟩
      show core_events (Event.fork sys.fork_ret :: _) = _
      rw [core_events_cons, hc]
      rfl
    · rw [if_neg hf]
      by_cases hn : sys.fork_ret < 0
      · rw [if_pos hn]
        exact Or.inr (Or.inr (Or.inl ⟨hn, rfl, rfl⟩))
      · rw [if_neg hn]
        exact Or.inr (Or.inr (Or.inr ⟨by omega, rfl, rfl⟩))

theorem session_body_core (sys : SessionSys) (username ruser rhost rdomain password : CString) :
    (core_events (session_body sys username ruser rhost rdomain password).events = [] ∧
      ((session_body sys username ruser rhost rdomain password).out = Term.ret PAM_SYSTEM_ERR ∨
        (session_body sys username ruser rhost rdomain password).out = Term.fault)) ∨
    ∃ pw path, sys.getpwnam username = some pw ∧ sun_path_string pw.pw_dir = some path ∧
      SessionOutcome sys pw path
        (core_events (session_body sys username ruser rhost rdomain password).events)
        (session_body sys username ruser rhost rdomain password).out := by
  rw [session_body_eq]
  cases hpw : sys.getpwnam username with
  | none => exact Or.inl ⟨rfl, Or.inl rfl⟩
  | some pw =>
    simp only []
    by_cases hs : sys.socket_ret < 0
    · rw [if_pos hs]
      exact Or.inl ⟨rfl, Or.inl rfl⟩
    · rw [if_neg hs]
      cases hp : sun_path_string pw.pw_dir with
      | none => exact Or.inl ⟨rfl, Or.inr rfl⟩
      | some path =>
        simp only []
        right
        refine ⟨pw, path, rfl, hp, ?_⟩
        unfold SessionOutcome
        by_cases hb : sys.bind_ret < 0
        · rw [if_pos hb]
          exact Or.inl ⟨hb, rfl, rfl⟩
        · rw [if_neg hb]
          have hb0 : 0 ≤ sys.bind_ret := by omega
          by_cases hm : sys.chmod_ret = 0
          · rw [if_neg (not_not.mpr hm)]
            by_cases ho : sys.chown_ret = 0
            · rw [if_neg (not_not.mpr ho)]
              simp only [core_events_append]
              have h5 : core_events [Event.getpwnam username, Event.socket sys.socket_ret,
                  Event.bind sys.socket_ret path sys.bind_ret,
                  Event.chmod path (S_IRUSR ||| S_IWUSR) sys.chmod_ret,
                  Event.chown path pw.pw_uid pw.pw_gid sys.chown_ret] =
                  [Event.bind sys.socket_ret path sys.bind_ret,
                  Event.chmod path (S_IRUSR ||| S_IWUSR) sys.chmod_ret,
                  Event.chown path pw.pw_uid pw.pw_gid sys.chown_ret] := rfl
              rw [h5]
              rcases session_fork_core sys pw sys.socket_ret ruser rhost rdomain password with
                ⟨h1, h2⟩ | ⟨h0, h1, h2⟩ | ⟨h0, h1, h2⟩ | ⟨h0, h1, h2⟩
              · rw [h1, h2]
                exact Or.inr (Or.inr (Or.inr (Or.inl ⟨hb0, hm, ho, rfl, rfl⟩)))
              · rw [h2]
                exact Or.inr (Or.inr (Or.inr (Or.inr (Or.inl ⟨hb0, hm, ho, h0, h1, rfl⟩))))
              · rw [h1, h2]
                exact Or.inr (Or.inr (Or.inr (Or.inr (Or.inr (Or.inl
                  ⟨hb0, hm, ho, h0, rfl, rfl⟩)))))
              · rw [h1, h2]
                exact Or.inr (Or.inr (Or.inr (Or.inr (Or.inr (Or.inr
                  ⟨hb0, hm, ho, h0, rfl, rfl⟩)))))
            · rw [if_pos ho]
              exact Or.inr (Or.inr (Or.inl ⟨hb0, hm, ho, rfl, rfl⟩))
          · rw [if_pos hm]
            exact Or.inr (Or.inl ⟨hb0, hm, rfl, rfl⟩)

theorem core_events_reap (kill_ret session_pid : Int) :
    core_events (if session_pid ≠ 0 then
      [Event.kill session_pid SIGKILL kill_ret, Event.store_session_pid 0] else []) =
      reap_events kill_ret session_pid := by
  unfold reap_events
  split_ifs <;> rfl

/-- The core events of `pam_sm_open_session`: the reaping of a recorded
deliverer, then nothing (an item is missing, the account or the socket is, or
the path does not fit), or one of the outcomes of `SessionOutcome`. -/
theorem open_session_core (pamh : pam_handle_t) (sys : SessionSys) (session_pid : Int) :
    ∃ core, core_events (pam_sm_open_session pamh sys session_pid).events =
        reap_events sys.kill_ret session_pid ++ core ∧
      ((core = [] ∧
        ((pam_sm_open_session pamh sys session_pid).out = Term.ret PAM_AUTH_ERR ∨
          (pam_sm_open_session pamh sys session_pid).out = Term.ret PAM_SYSTEM_ERR ∨
          (pam_sm_open_session pamh sys session_pid).out = Term.fault)) ∨
      ∃ username pw path, (get_item pamh PAM_USER).out = Term.ret (some username) ∧
        sys.getpwnam username = some pw ∧ sun_path_string pw.pw_dir = some path ∧
        SessionOutcome sys pw path core (pam_sm_open_session pamh sys session_pid).out) := by
  rw [open_session_eq]
  simp only [core_events_append, core_events_reap]
  obtain ⟨evs, hevs, hw⟩ := with_items_shape pamh (session_body sys)
  rcases hw with hw | hw | ⟨username, ruser, rhost, rdomain, password, h1, _, _, _, _, hw⟩
  · rw [hw]
    exact ⟨[], by rw [core_events_items evs hevs], Or.inl ⟨rfl, Or.inl rfl⟩⟩
  · rw [hw]
    exact ⟨[], by rw [core_events_items evs hevs], Or.inl ⟨rfl, Or.inr (Or.inr rfl)⟩⟩
  · rw [hw]
    simp only [core_events_append, core_events_items evs hevs, List.nil_append]
    refine ⟨_, rfl, ?_⟩
    rcases session_body_core sys username ruser rhost rdomain password with
      ⟨hc, ho⟩ | ⟨pw, path, hpw, hp, ho⟩
    · left
      refine ⟨hc, ?_⟩
      rcases ho with ho | ho
      · exact Or.inr (Or.inl ho)
      · exact Or.inr (Or.inr ho)
    · exact Or.inr ⟨username, pw, path, h1, hpw, hp, ho⟩

/-! ## C2: the run of the deliverer child -/

theorem drop_privileges_ok (pw : passwd) (d : DropRets)
    (h : 0 ≤ d.setgid_ret ∧ 0 ≤ d.setuid_ret ∧ 0 ≤ d.setegid_ret ∧ 0 ≤ d.seteuid_ret) :
    drop_privileges pw d =
      ⟨[Event.setgid pw.pw_gid d.setgid_ret, Event.setuid pw.pw_uid d.setuid_ret,
        Event.setegid pw.pw_gid d.setegid_ret, Event.seteuid pw.pw_uid d.seteuid_ret],
        Term.ret false⟩ := by
  obtain ⟨h1, h2, h3, h4⟩ := h
  rw [drop_privileges_eq, if_neg (by omega), if_neg (by omega), if_neg (by omega)]
  have : decide (d.seteuid_ret < 0) = false := by
    rw [decide_eq_false_iff_not]
    omega
  rw [this]

/-- The deliverer child when the privilege drop, `listen` and `accept` succeed:
one `write` of the whole buffer on the accepted connection, then the two
`close` calls, and exit status 0 exactly when `write` returned `buffer_len`. -/
theorem deliverer_child_ok (sys : SessionSys) (pw : passwd) (socketfd : Int)
    (buffer : List Char) (buffer_len : Int)
    (hdrop : 0 ≤ sys.drop.setgid_ret ∧ 0 ≤ sys.drop.setuid_ret ∧ 0 ≤ sys.drop.setegid_ret ∧
      0 ≤ sys.drop.seteuid_ret)
    (hlisten : 0 ≤ sys.listen_ret) (haccept : 0 ≤ sys.accept_ret) :
    deliverer_child sys pw socketfd buffer buffer_len =
      ⟨[Event.setgid pw.pw_gid sys.drop.setgid_ret, Event.setuid pw.pw_uid sys.drop.setuid_ret,
        Event.setegid pw.pw_gid sys.drop.setegid_ret,
        Event.seteuid pw.pw_uid sys.drop.seteuid_ret,
        Event.listen socketfd 1 sys.listen_ret, Event.accept socketfd sys.accept_ret,
        Event.write sys.accept_ret (buffer.take buffer_len.toNat) sys.write_ret,
        Event.close sys.accept_ret, Event.close socketfd],
        Term.exit (if to_int32 sys.write_ret = buffer_len then 0 else EXIT_FAILURE)⟩ := by
  rw [deliverer_child_eq, drop_privileges_ok pw sys.drop hdrop]
  simp only [if_true]
  rw [if_neg (by omega), if_neg (by omega)]
  rfl

theorem snprintf_bundle (ruser rhost rdomain password : CString) :
    snprintf (ruser.length + rhost.length + rdomain.length + password.length + 4)
      (ruser ++ " ".toList ++ password ++ " ".toList ++ rdomain ++ " ".toList ++ rhost) =
      bundle_of_spec ruser password rdomain rhost ++ [NUL] := by
  have hlen : (ruser ++ " ".toList ++ password ++ " ".toList ++ rdomain ++ " ".toList ++
      rhost).length + 1 = ruser.length + rhost.length + rdomain.length + password.length + 4 := by
    simp
    omega
  rw [← hlen, snprintf_full]
  rfl

theorem bundle_length (ruser rhost rdomain password : CString) :
    (bundle_of_spec ruser password rdomain rhost ++ [NUL]).length =
      ruser.length + rhost.length + rdomain.length + password.length + 4 := by
  simp [bundle_of_spec]
  omega

/-- The whole run of `pam_sm_open_session` in the deliverer child, when every
step up to `accept` succeeds. -/
theorem open_session_child_run (pamh : pam_handle_t) (sys : SessionSys) (session_pid : Int)
    (username ruser rhost rdomain password : CString) (pw : passwd) (path : CString)
    (h1 : (get_item pamh PAM_USER).out = Term.ret (some username))
    (h2 : (get_item pamh PAM_RUSER).out = Term.ret (some ruser))
    (h3 : (get_item pamh PAM_RHOST).out = Term.ret (some rhost))
    (h4 : (get_item pamh PAM_TYPE_DOMAIN).out = Term.ret (some rdomain))
    (h5 : (get_item pamh PAM_AUTHTOK).out = Term.ret (some password))
    (hlen : ruser.length + rhost.length + rdomain.length + password.length + 4 < 2 ^ 31)
    (hpw : sys.getpwnam username = some pw) (hsocket : 0 ≤ sys.socket_ret)
    (hpath : sun_path_string pw.pw_dir = some path)
    (hbind : 0 ≤ sys.bind_ret) (hchmod : sys.chmod_ret = 0) (hchown : sys.chown_ret = 0)
    (hfork : sys.fork_ret = 0)
    (hdrop : 0 ≤ sys.drop.setgid_ret ∧ 0 ≤ sys.drop.setuid_ret ∧ 0 ≤ sys.drop.setegid_ret ∧
      0 ≤ sys.drop.seteuid_ret)
    (hlisten : 0 ≤ sys.listen_ret) (haccept : 0 ≤ sys.accept_ret) :
    pam_sm_open_session pamh sys session_pid =
      ⟨reap_events sys.kill_ret session_pid ++ (items_events pamh ++
        [Event.getpwnam username, Event.socket sys.socket_ret,
          Event.bind sys.socket_ret path sys.bind_ret,
          Event.chmod path (S_IRUSR ||| S_IWUSR) sys.chmod_ret,
          Event.chown path pw.pw_uid pw.pw_gid sys.chown_ret,
          Event.fork sys.fork_ret,
          Event.setgid pw.pw_gid sys.drop.setgid_ret, Event.setuid pw.pw_uid sys.drop.setuid_ret,
          Event.setegid pw.pw_gid sys.drop.setegid_ret,
          Event.seteuid pw.pw_uid sys.drop.seteuid_ret,
          Event.listen sys.socket_ret 1 sys.listen_ret,
          Event.accept sys.socket_ret sys.accept_ret,
          Event.write sys.accept_ret (bundle_of_spec ruser password rdomain rhost ++ [NUL])
            sys.write_ret,
          Event.close sys.accept_ret, Event.close sys.socket_ret]),
        Term.exit (if to_int32 sys.write_ret =
          ((ruser.length + rhost.length + rdomain.length + password.length + 4 : Nat) : Int)
          then 0 else EXIT_FAILURE)⟩ := by
  have hr : (if session_pid ≠ 0 then
      [Event.kill session_pid SIGKILL sys.kill_ret, Event.store_session_pid 0] else []) =
      reap_events sys.kill_ret session_pid := rfl
  have hs : ¬ sys.socket_ret < 0 := by omega
  have hb : ¬ sys.bind_ret < 0 := by omega
  have hl : ¬ ((ruser.length + rhost.length + rdomain.length + password.length + 4 : Nat) : Int)
      < 0 := by omega
  rw [open_session_eq, hr, with_items_acquired pamh _ username ruser rhost rdomain password
    h1 h2 h3 h4 h5, session_body_eq, hpw]
  simp only []
  rw [if_neg hs, hpath]
  simp only []
  rw [if_neg hb, if_neg (not_not.mpr hchmod), if_neg (not_not.mpr hchown),
    session_fork_eq, buffer_len_of_eq _ _ _ _ hlen, if_neg hl, if_pos hfork,
    deliverer_child_ok sys pw _ _ _ hdrop hlisten haccept, Int.toNat_ofNat, snprintf_bundle,
    List.take_of_length_le (by rw [bundle_length])]
  rfl

theorem items_events_item (pamh : pam_handle_t) :
    ∀ e ∈ items_events pamh, is_item_event e = true := by
  unfold items_events
  intro e he
  simp only [List.mem_append] at he
  rcases he with (((h | h) | h) | h) | h
  · exact (get_item_shape pamh _).1 e h
  · exact (get_item_shape pamh _).1 e h
  · exact (get_item_shape pamh _).1 e h
  · exact (get_item_shape pamh _).1 e h
  · exact (get_item_shape pamh _).1 e h

theorem write_calls_reap (kill_ret session_pid : Int) :
    write_calls (reap_events kill_ret session_pid) = [] := by
  unfold reap_events
  split_ifs <;> rfl

/-- C2 (amended): take four values whose lengths sum to less than `2 ^ 31 - 4`,
and a run of `pam_sm_open_session` in which the account is found, `socket`,
`bind`, `chmod` and `chown` succeed, the socket path is built without a store
past `sun_path`, `fork` returns 0, and the deliverer child drops privileges,
listens and accepts a connection.  Then the child performs exactly one
`write`, on the accepted connection, and its data is
`ruser ++ " " ++ password ++ " " ++ domain ++ " " ++ rhost` followed by one zero
byte; when that write is complete the client receives exactly these bytes, the
zero byte included, and the child exits with status 0. -/
theorem deliverer_payload (pamh : pam_handle_t) (sys : SessionSys) (session_pid : Int)
    (username ruser rhost rdomain password : CString) (pw : passwd) (path : CString)
    (h1 : (get_item pamh PAM_USER).out = Term.ret (some username))
    (h2 : (get_item pamh PAM_RUSER).out = Term.ret (some ruser))
    (h3 : (get_item pamh PAM_RHOST).out = Term.ret (some rhost))
    (h4 : (get_item pamh PAM_TYPE_DOMAIN).out = Term.ret (some rdomain))
    (h5 : (get_item pamh PAM_AUTHTOK).out = Term.ret (some password))
    (hlen : ruser.length + rhost.length + rdomain.length + password.length + 4 < 2 ^ 31)
    (hpw : sys.getpwnam username = some pw) (hsocket : 0 ≤ sys.socket_ret)
    (hpath : sun_path_string pw.pw_dir = some path)
    (hbind : 0 ≤ sys.bind_ret) (hchmod : sys.chmod_ret = 0) (hchown : sys.chown_ret = 0)
    (hfork : sys.fork_ret = 0)
    (hdrop : 0 ≤ sys.drop.setgid_ret ∧ 0 ≤ sys.drop.setuid_ret ∧ 0 ≤ sys.drop.setegid_ret ∧
      0 ≤ sys.drop.seteuid_ret)
    (hlisten : 0 ≤ sys.listen_ret) (haccept : 0 ≤ sys.accept_ret) :
    write_calls (pam_sm_open_session pamh sys session_pid).events =
      [Event.write sys.accept_ret (bundle_of_spec ruser password rdomain rhost ++ [NUL])
        sys.write_ret] ∧
    (sys.write_ret = ((bundle_of_spec ruser password rdomain rhost ++ [NUL]).length : Int) →
      bytes_written sys.accept_ret (pam_sm_open_session pamh sys session_pid).events =
        bundle_of_spec ruser password rdomain rhost ++ [NUL] ∧
      (pam_sm_open_session pamh sys session_pid).out = Term.exit 0) := by
  rw [open_session_child_run pamh sys session_pid username ruser rhost rdomain password pw path
    h1 h2 h3 h4 h5 hlen hpw hsocket hpath hbind hchmod hchown hfork hdrop hlisten haccept]
  have hw : write_calls (reap_events sys.kill_ret session_pid ++ (items_events pamh ++
      [Event.getpwnam username, Event.socket sys.socket_ret,
        Event.bind sys.socket_ret path sys.bind_ret,
        Event.chmod path (S_IRUSR ||| S_IWUSR) sys.chmod_ret,
        Event.chown path pw.pw_uid pw.pw_gid sys.chown_ret,
        Event.fork sys.fork_ret,
        Event.setgid pw.pw_gid sys.drop.setgid_ret, Event.setuid pw.pw_uid sys.drop.setuid_ret,
        Event.setegid pw.pw_gid sys.drop.setegid_ret,
        Event.seteuid pw.pw_uid sys.drop.seteuid_ret,
        Event.listen sys.socket_ret 1 sys.listen_ret,
        Event.accept sys.socket_ret sys.accept_ret,
        Event.write sys.accept_ret (bundle_of_spec ruser password rdomain rhost ++ [NUL])
          sys.write_ret,
        Event.close sys.accept_ret, Event.close sys.socket_ret])) =
      [Event.write sys.accept_ret (bundle_of_spec ruser password rdomain rhost ++ [NUL])
        sys.write_ret] := by
    rw [write_calls_append, write_calls_append, write_calls_reap,
      write_calls_items _ (items_events_item pamh)]
    rfl
  refine ⟨hw, ?_⟩
  intro hcomplete
  constructor
  · rw [bytes_written_write_calls]
    simp only [hw]
    rw [hcomplete]
    simp only [bytes_written, haccept, and_self, if_true, Int.toNat_ofNat, List.take_length,
      List.append_nil, true_and]
    have h0 : (0 : Int) ≤ ((bundle_of_spec ruser password rdomain rhost ++ [NUL]).length : Nat) :=
      Int.ofNat_nonneg _
    simp only [h0, if_true]
  · have hr : to_int32 sys.write_ret =
        ((ruser.length + rhost.length + rdomain.length + password.length + 4 : Nat) : Int) := by
      rw [hcomplete, bundle_length]
      exact to_int32_of_range _ (by omega) (by omega)
    simp only [hr, if_true]

set_option maxRecDepth 100000 in
unseal sun_path_string in
theorem sun_path_string_slash :
    sun_path_string slash_home.pw_dir = some "//.freerdp-socket".toList := by
  decide

/-- C2 (amended), in the scenario of the specification, for an account with
home directory "/": the deliverer child writes all 25 bytes and exits 0. -/
theorem deliverer_payload_witness :
    bytes_written 4 (pam_sm_open_session (scenario_handle "secret".toList)
      (session_sys 0 0 25) 0).events =
      bundle_of_spec "bob".toList "secret".toList "CORP".toList "10.0.0.5".toList ++ [NUL] ∧
    (pam_sm_open_session (scenario_handle "secret".toList) (session_sys 0 0 25) 0).out =
      Term.exit 0 :=
  (deliverer_payload (scenario_handle "secret".toList) (session_sys 0 0 25) 0
    "alice".toList "bob".toList "10.0.0.5".toList "CORP".toList "secret".toList
    slash_home "//.freerdp-socket".toList
    (scenario_items _).1 (scenario_items _).2.1 (scenario_items _).2.2.1
    (scenario_items _).2.2.2.1 (scenario_items _).2.2.2.2 (by decide)
    rfl (by decide) sun_path_string_slash (by decide) rfl rfl rfl
    ⟨by decide, by decide, by decide, by decide⟩ (by decide) (by decide)).2 (by decide)

set_option maxRecDepth 100000 in
unseal sun_path_string in
/-- C2 as stated fails in the scenario of the specification: for ("bob",
"secret", "CORP", "10.0.0.5") the single write is complete (25 of 25 bytes),
the child exits with status 0, and the client receives 25 bytes, the 24
characters of "bob secret CORP 10.0.0.5" and a trailing zero byte. -/
theorem deliverer_sends_trailing_nul :
    (pam_sm_open_session (scenario_handle "secret".toList) (session_sys 0 0 25) 0).out =
      Term.exit 0 ∧
    write_calls (pam_sm_open_session (scenario_handle "secret".toList)
      (session_sys 0 0 25) 0).events =
      [Event.write 4 ("bob secret CORP 10.0.0.5".toList ++ [NUL]) 25] ∧
    bytes_written 4 (pam_sm_open_session (scenario_handle "secret".toList)
      (session_sys 0 0 25) 0).events = "bob secret CORP 10.0.0.5".toList ++ [NUL] ∧
    bytes_written 4 (pam_sm_open_session (scenario_handle "secret".toList)
      (session_sys 0 0 25) 0).events ≠ "bob secret CORP 10.0.0.5".toList := by
  decide

/-! ## C6: the record of the deliverer across callbacks -/

/-- The whole run of `pam_sm_open_session` in the parent when every step
succeeds: the deliverer is forked and its pid is stored in the record. -/
theorem open_session_parent_run (pamh : pam_handle_t) (sys : SessionSys) (session_pid : Int)
    (username ruser rhost rdomain password : CString) (pw : passwd) (path : CString)
    (h1 : (get_item pamh PAM_USER).out = Term.ret (some username))
    (h2 : (get_item pamh PAM_RUSER).out = Term.ret (some ruser))
    (h3 : (get_item pamh PAM_RHOST).out = Term.ret (some rhost))
    (h4 : (get_item pamh PAM_TYPE_DOMAIN).out = Term.ret (some rdomain))
    (h5 : (get_item pamh PAM_AUTHTOK).out = Term.ret (some password))
    (hlen : ruser.length + rhost.length + rdomain.length + password.length + 4 < 2 ^ 31)
    (hpw : sys.getpwnam username = some pw) (hsocket : 0 ≤ sys.socket_ret)
    (hpath : sun_path_string pw.pw_dir = some path)
    (hbind : 0 ≤ sys.bind_ret) (hchmod : sys.chmod_ret = 0) (hchown : sys.chown_ret = 0)
    (hfork : 0 < sys.fork_ret) :
    pam_sm_open_session pamh sys session_pid =
      ⟨reap_events sys.kill_ret session_pid ++ (items_events pamh ++
        [Event.getpwnam username, Event.socket sys.socket_ret,
          Event.bind sys.socket_ret path sys.bind_ret,
          Event.chmod path (S_IRUSR ||| S_IWUSR) sys.chmod_ret,
          Event.chown path pw.pw_uid pw.pw_gid sys.chown_ret,
          Event.fork sys.fork_ret, Event.store_session_pid sys.fork_ret]),
        Term.ret PAM_SUCCESS⟩ := by
  have hr : (if session_pid ≠ 0 then
      [Event.kill session_pid SIGKILL sys.kill_ret, Event.store_session_pid 0] else []) =
      reap_events sys.kill_ret session_pid := rfl
  have hs : ¬ sys.socket_ret < 0 := by omega
  have hb : ¬ sys.bind_ret < 0 := by omega
  have hl : ¬ ((ruser.length + rhost.length + rdomain.length + password.length + 4 : Nat) : Int)
      < 0 := by omega
  have hf0 : ¬ sys.fork_ret = 0 := by omega
  have hf1 : ¬ sys.fork_ret < 0 := by omega
  rw [open_session_eq, hr, with_items_acquired pamh _ username ruser rhost rdomain password
    h1 h2 h3 h4 h5, session_body_eq, hpw]
  simp only []
  rw [if_neg hs, hpath]
  simp only []
  rw [if_neg hb, if_neg (not_not.mpr hchmod), if_neg (not_not.mpr hchown),
    session_fork_eq, buffer_len_of_eq _ _ _ _ hlen, if_neg hl, if_neg hf0, if_neg hf1]
  rfl

theorem fs_after_append (cr : Creator) (fs : FS) (a b : List Event) :
    fs_after cr fs (a ++ b) = fs_after cr (fs_after cr fs a) b := by
  unfold fs_after
  rw [List.foldl_append]

theorem fs_after_reap (cr : Creator) (fs : FS) (kill_ret session_pid : Int) :
    fs_after cr fs (reap_events kill_ret session_pid) = fs := by
  unfold reap_events
  split_ifs <;> rfl

theorem fs_after_bind (cr : Creator) (fs : FS) (s : Int) (path : CString) (b : Int)
    (hb : 0 ≤ b) :
    fs_after cr fs [Event.bind s path b] path = some ⟨cr.mode, cr.uid, cr.gid⟩ := by
  simp [fs_after, fs_event, hb]

theorem fs_after_bind_chmod_failed (cr : Creator) (fs : FS) (s : Int) (path : CString)
    (b : Int) (mode : Nat) (c : Int) (hb : 0 ≤ b) (hc : c ≠ 0) :
    fs_after cr fs [Event.bind s path b, Event.chmod path mode c] path =
      some ⟨cr.mode, cr.uid, cr.gid⟩ := by
  simp [fs_after, fs_event, hb, hc]

theorem fs_after_bind_chmod (cr : Creator) (fs : FS) (s : Int) (path : CString)
    (b : Int) (mode : Nat) (hb : 0 ≤ b) :
    fs_after cr fs [Event.bind s path b, Event.chmod path mode 0] path =
      some ⟨mode, cr.uid, cr.gid⟩ := by
  simp [fs_after, fs_event, hb]

theorem fs_after_bind_chmod_chown_failed (cr : Creator) (fs : FS) (s : Int) (path : CString)
    (b : Int) (mode uid gid : Nat) (o : Int) (hb : 0 ≤ b) (ho : o ≠ 0) :
    fs_after cr fs [Event.bind s path b, Event.chmod path mode 0,
      Event.chown path uid gid o] path = some ⟨mode, cr.uid, cr.gid⟩ := by
  simp [fs_after, fs_event, hb, ho]

theorem fs_after_bind_chmod_chown (cr : Creator) (fs : FS) (s : Int) (path : CString)
    (b : Int) (mode uid gid : Nat) (hb : 0 ≤ b) (tail : List Event)
    (htail : core_events tail = [] ∨ (∃ f, core_events tail = [Event.fork f]) ∨
      ∃ f, core_events tail = [Event.fork f, Event.store_session_pid f]) :
    fs_after cr fs ([Event.bind s path b, Event.chmod path mode 0,
      Event.chown path uid gid 0] ++ tail) path = some ⟨mode, uid, gid⟩ := by
  rw [fs_after_append, fs_after_core _ _ tail]
  have h3 : fs_after cr fs [Event.bind s path b, Event.chmod path mode 0,
      Event.chown path uid gid 0] path = some ⟨mode, uid, gid⟩ := by
    simp [fs_after, fs_event, hb]
  rcases htail with h | ⟨f, h⟩ | ⟨f, h⟩ <;> rw [h] <;> exact h3

theorem session_body_outcome (sys : SessionSys)
    (username ruser rhost rdomain password : CString) (pw : passwd) (path : CString)
    (hpw : sys.getpwnam username = some pw) (hsocket : 0 ≤ sys.socket_ret)
    (hpath : sun_path_string pw.pw_dir = some path) :
    SessionOutcome sys pw path
      (core_events (session_body sys username ruser rhost rdomain password).events)
      (session_body sys username ruser rhost rdomain password).out := by
  rcases session_body_core sys username ruser rhost rdomain password with
    ⟨hc, _⟩ | ⟨pw2, path2, hpw2, hp2, ho⟩
  · exfalso
    rw [session_body_eq, hpw] at hc
    simp only [] at hc
    rw [if_neg (by omega), hpath] at hc
    simp only [] at hc
    by_cases hb : sys.bind_ret < 0
    · rw [if_pos hb] at hc
      cases hc
    · rw [if_neg hb] at hc
      by_cases hm : sys.chmod_ret = 0
      · rw [if_neg (not_not.mpr hm)] at hc
        by_cases ho : sys.chown_ret = 0
        · rw [if_neg (not_not.mpr ho)] at hc
          have h5 : core_events [Event.getpwnam username, Event.socket sys.socket_ret,
              Event.bind sys.socket_ret path sys.bind_ret,
              Event.chmod path (S_IRUSR ||| S_IWUSR) sys.chmod_ret,
              Event.chown path pw.pw_uid pw.pw_gid sys.chown_ret] =
              [Event.bind sys.socket_ret path sys.bind_ret,
              Event.chmod path (S_IRUSR ||| S_IWUSR) sys.chmod_ret,
              Event.chown path pw.pw_uid pw.pw_gid sys.chown_ret] := rfl
          change core_events (_ ++ _) = [] at hc
          rw [core_events_append, h5] at hc
          cases hc
        · rw [if_pos ho] at hc
          cases hc
      · rw [if_pos hm] at hc
        cases hc
  · rw [hpw] at hpw2
    injection hpw2 with hpw2
    subst hpw2
    rw [hpath] at hp2
    injection hp2 with hp2
    subst hp2
    exact ho

/-- With the five items acquired the core events and the end of
`pam_sm_open_session` are those of lines 236-325, after the reaping. -/
theorem open_session_outcome (pamh : pam_handle_t) (sys : SessionSys) (session_pid : Int)
    (username ruser rhost rdomain password : CString) (pw : passwd) (path : CString)
    (h1 : (get_item pamh PAM_USER).out = Term.ret (some username))
    (h2 : (get_item pamh PAM_RUSER).out = Term.ret (some ruser))
    (h3 : (get_item pamh PAM_RHOST).out = Term.ret (some rhost))
    (h4 : (get_item pamh PAM_TYPE_DOMAIN).out = Term.ret (some rdomain))
    (h5 : (get_item pamh PAM_AUTHTOK).out = Term.ret (some password))
    (hpw : sys.getpwnam username = some pw) (hsocket : 0 ≤ sys.socket_ret)
    (hpath : sun_path_string pw.pw_dir = some path) :
    ∃ core, core_events (pam_sm_open_session pamh sys session_pid).events =
        reap_events sys.kill_ret session_pid ++ core ∧
      SessionOutcome sys pw path core (pam_sm_open_session pamh sys session_pid).out := by
  have hr : (if session_pid ≠ 0 then
      [Event.kill session_pid SIGKILL sys.kill_ret, Event.store_session_pid 0] else []) =
      reap_events sys.kill_ret session_pid := rfl
  refine ⟨core_events (session_body sys username ruser rhost rdomain password).events, ?_, ?_⟩
  · rw [open_session_eq, hr, with_items_acquired pamh _ username ruser rhost rdomain password
      h1 h2 h3 h4 h5]
    show core_events (_ ++ (_ ++ _)) = _
    rw [core_events_append, core_events_append, core_events_items _ (items_events_item pamh),
      List.nil_append]
    have hre : core_events (reap_events sys.kill_ret session_pid) =
        reap_events sys.kill_ret session_pid := by
      unfold reap_events
      split_ifs <;> rfl
    rw [hre]
  · have ho : (pam_sm_open_session pamh sys session_pid).out =
        (session_body sys username ruser rhost rdomain password).out := by
      rw [open_session_eq, with_items_acquired pamh _ username ruser rhost rdomain password
        h1 h2 h3 h4 h5]
    rw [ho]
    exact session_body_outcome sys username ruser rhost rdomain password pw path hpw hsocket
      hpath

/-- The socket file at the end of each of the ways of `SessionOutcome`. -/
theorem socket_file_of_outcome (sys : SessionSys) (pw : passwd) (path : CString)
    (core : List Event) (out : Term Int) (cr : Creator) (fs : FS)
    (ho : SessionOutcome sys pw path core out) :
    (∀ fd p r, Event.bind fd p r ∈ core →
      fd = sys.socket_ret ∧ p = path ∧ r = sys.bind_ret) ∧
    Event.bind sys.socket_ret path sys.bind_ret ∈ core ∧
    (out = Term.ret PAM_SUCCESS →
      0 ≤ sys.bind_ret ∧ sys.chmod_ret = 0 ∧ sys.chown_ret = 0) ∧
    (0 ≤ sys.bind_ret →
      (sys.chmod_ret ≠ 0 → out = Term.ret PAM_SYSTEM_ERR ∧
        fs_after cr fs core path = some ⟨cr.mode, cr.uid, cr.gid⟩) ∧
      (sys.chmod_ret = 0 → sys.chown_ret ≠ 0 → out = Term.ret PAM_SYSTEM_ERR ∧
        fs_after cr fs core path = some ⟨S_IRUSR ||| S_IWUSR, cr.uid, cr.gid⟩) ∧
      (sys.chmod_ret = 0 → sys.chown_ret = 0 →
        fs_after cr fs core path = some ⟨S_IRUSR ||| S_IWUSR, pw.pw_uid, pw.pw_gid⟩)) := by
  have hne : Term.ret PAM_SYSTEM_ERR ≠ (Term.ret PAM_SUCCESS : Term Int) := by decide
  unfold SessionOutcome at ho
  rcases ho with ⟨hb, hout, hc⟩ | ⟨hb, hm, hout, hc⟩ | ⟨hb, hm, hw, hout, hc⟩ |
    ⟨hb, hm, hw, hout, hc⟩ | ⟨hb, hm, hw, _, ⟨code, hout⟩, hc⟩ | ⟨hb, hm, hw, _, hout, hc⟩ |
    ⟨hb, hm, hw, _, hout, hc⟩
  · subst hc
    refine ⟨by simp, by simp, ?_, fun h => ?_⟩
    · intro h
      rw [hout] at h
      exact absurd h hne
    · omega
  · subst hc
    refine ⟨by simp, by simp, ?_, fun _ => ⟨fun _ => ⟨hout, ?_⟩, fun h => absurd h hm,
      fun h => absurd h hm⟩⟩
    · intro h
      rw [hout] at h
      exact absurd h hne
    · exact fs_after_bind_chmod_failed cr fs _ _ _ _ _ hb hm
  · subst hc
    refine ⟨by simp, by simp, ?_, fun _ => ⟨fun h => absurd hm h, fun _ _ => ⟨hout, ?_⟩,
      fun _ h => absurd h hw⟩⟩
    · intro h
      rw [hout] at h
      exact absurd h hne
    · rw [hm]
      exact fs_after_bind_chmod_chown_failed cr fs _ _ _ _ _ _ _ hb hw
  · subst hc
    refine ⟨by simp, by simp, ?_, fun _ => ⟨fun h => absurd hm h, fun _ h => absurd hw h,
      fun _ _ => ?_⟩⟩
    · intro h
      rw [hout] at h
      cases h
    · rw [hm, hw]
      exact fs_after_bind_chmod_chown cr fs _ _ _ _ _ _ hb [] (Or.inl rfl)
  · subst hc
    refine ⟨by simp, by simp, ?_, fun _ => ⟨fun h => absurd hm h, fun _ h => absurd hw h,
      fun _ _ => ?_⟩⟩
    · intro h
      rw [hout] at h
      cases h
    · rw [hm, hw]
      exact fs_after_bind_chmod_chown cr fs _ _ _ _ _ _ hb [Event.fork sys.fork_ret]
        (Or.inr (Or.inl ⟨_, rfl⟩))
  · subst hc
    refine ⟨by simp, by simp, ?_, fun _ => ⟨fun h => absurd hm h, fun _ h => absurd hw h,
      fun _ _ => ?_⟩⟩
    · intro h
      rw [hout] at h
      exact absurd h hne
    · rw [hm, hw]
      exact fs_after_bind_chmod_chown cr fs _ _ _ _ _ _ hb [Event.fork sys.fork_ret]
        (Or.inr (Or.inl ⟨_, rfl⟩))
  · subst hc
    refine ⟨by simp, by simp, fun _ => ⟨hb, hm, hw⟩, fun _ => ⟨fun h => absurd hm h,
      fun _ h => absurd hw h, fun _ _ => ?_⟩⟩
    rw [hm, hw]
    exact fs_after_bind_chmod_chown cr fs _ _ _ _ _ _ hb
      [Event.fork sys.fork_ret, Event.store_session_pid sys.fork_ret]
      (Or.inr (Or.inr ⟨_, rfl⟩))

theorem fs_after_open_session (pamh : pam_handle_t) (sys : SessionSys) (session_pid : Int)
    (cr : Creator) (fs : FS) (core : List Event)
    (hcore : core_events (pam_sm_open_session pamh sys session_pid).events =
      reap_events sys.kill_ret session_pid ++ core) :
    fs_after cr fs (pam_sm_open_session pamh sys session_pid).events = fs_after cr fs core := by
  rw [fs_after_core, hcore, fs_after_append, fs_after_reap]

theorem bind_mem_open_session (pamh : pam_handle_t) (sys : SessionSys) (session_pid : Int)
    (core : List Event)
    (hcore : core_events (pam_sm_open_session pamh sys session_pid).events =
      reap_events sys.kill_ret session_pid ++ core) (fd : Int) (p : CString) (r : Int) :
    Event.bind fd p r ∈ (pam_sm_open_session pamh sys session_pid).events ↔
      Event.bind fd p r ∈ core := by
  have h : Event.bind fd p r ∈ (pam_sm_open_session pamh sys session_pid).events ↔
      Event.bind fd p r ∈ core_events (pam_sm_open_session pamh sys session_pid).events := by
    unfold core_events
    rw [List.mem_filter]
    simp [is_neutral]
  rw [h, hcore, List.mem_append]
  constructor
  · rintro (h | h)
    · unfold reap_events at h
      split_ifs at h <;> simp at h
    · exact h
  · exact Or.inr

/-- C8 (amended).  The socket file on return from `pam_sm_open_session`, for a
file system `fs` before the call and a creator `cr` (the permission bits and
the owner that `bind` gives a new socket file).

First part: in every call in which the five items are acquired, the account is
found, `socket` succeeds, the path is built without a store outside `sun_path`
and `bind` succeeds, the call binds the file at that path, and on return:
if `chmod` failed the call returns `PAM_SYSTEM_ERR` and the file is left with
the permission bits and owner `bind` gave it; if `chmod` succeeded the file has
exactly the bits `S_IRUSR | S_IWUSR` and no group or other bit, however the call
ends; if then `chown` failed the call returns `PAM_SYSTEM_ERR` and the owner is
still the creator; if `chown` succeeded the owner uid and gid are those of the
passwd entry; and with a payload length in the range of `int` and a positive
result of `fork` the call returns `PAM_SUCCESS`.

Second part: every successful `bind` in the trace of a call is that one.

Third part: whenever the call returns `PAM_SUCCESS` it bound a file, whose bits
are then exactly `S_IRUSR | S_IWUSR`, octal 0600, and whose owner uid and gid
are those of the passwd entry of the account. -/
theorem socket_file_permissions :
    (∀ (pamh : pam_handle_t) (sys : SessionSys) (session_pid : Int) (cr : Creator) (fs : FS)
      (username ruser rhost rdomain password : CString) (pw : passwd) (path : CString),
      (get_item pamh PAM_USER).out = Term.ret (some username) →
      (get_item pamh PAM_RUSER).out = Term.ret (some ruser) →
      (get_item pamh PAM_RHOST).out = Term.ret (some rhost) →
      (get_item pamh PAM_TYPE_DOMAIN).out = Term.ret (some rdomain) →
      (get_item pamh PAM_AUTHTOK).out = Term.ret (some password) →
      sys.getpwnam username = some pw → 0 ≤ sys.socket_ret →
      sun_path_string pw.pw_dir = some path → 0 ≤ sys.bind_ret →
      Event.bind sys.socket_ret path sys.bind_ret ∈
        (pam_sm_open_session pamh sys session_pid).events ∧
      (sys.chmod_ret ≠ 0 →
        (pam_sm_open_session pamh sys session_pid).out = Term.ret PAM_SYSTEM_ERR ∧
        fs_after cr fs (pam_sm_open_session pamh sys session_pid).events path =
          some ⟨cr.mode, cr.uid, cr.gid⟩) ∧
      (sys.chmod_ret = 0 →
        ∃ m, fs_after cr fs (pam_sm_open_session pamh sys session_pid).events path = some m ∧
          m.mode = S_IRUSR ||| S_IWUSR ∧ group_other_bits m.mode = 0) ∧
      (sys.chmod_ret = 0 → sys.chown_ret ≠ 0 →
        (pam_sm_open_session pamh sys session_pid).out = Term.ret PAM_SYSTEM_ERR ∧
        fs_after cr fs (pam_sm_open_session pamh sys session_pid).events path =
          some ⟨S_IRUSR ||| S_IWUSR, cr.uid, cr.gid⟩) ∧
      (sys.chmod_ret = 0 → sys.chown_ret = 0 →
        fs_after cr fs (pam_sm_open_session pamh sys session_pid).events path =
          some ⟨S_IRUSR ||| S_IWUSR, pw.pw_uid, pw.pw_gid⟩) ∧
      (ruser.length + rhost.length + rdomain.length + password.length + 4 < 2 ^ 31 →
        sys.chmod_ret = 0 → sys.chown_ret = 0 → 0 < sys.fork_ret →
        (pam_sm_open_session pamh sys session_pid).out = Term.ret PAM_SUCCESS)) ∧
    (∀ (pamh : pam_handle_t) (sys : SessionSys) (session_pid : Int)
      (fd : Int) (p : CString) (r : Int),
      Event.bind fd p r ∈ (pam_sm_open_session pamh sys session_pid).events →
      ∃ username pw, (get_item pamh PAM_USER).out = Term.ret (some username) ∧
        sys.getpwnam username = some pw ∧ sun_path_string pw.pw_dir = some p ∧
        fd = sys.socket_ret ∧ r = sys.bind_ret) ∧
    (∀ (pamh : pam_handle_t) (sys : SessionSys) (session_pid : Int) (cr : Creator) (fs : FS),
      (pam_sm_open_session pamh sys session_pid).out = Term.ret PAM_SUCCESS →
      ∃ username pw path, (get_item pamh PAM_USER).out = Term.ret (some username) ∧
        sys.getpwnam username = some pw ∧ sun_path_string pw.pw_dir = some path ∧
        Event.bind sys.socket_ret path sys.bind_ret ∈
          (pam_sm_open_session pamh sys session_pid).events ∧ 0 ≤ sys.bind_ret ∧
        fs_after cr fs (pam_sm_open_session pamh sys session_pid).events path =
          some ⟨S_IRUSR ||| S_IWUSR, pw.pw_uid, pw.pw_gid⟩) ∧
    S_IRUSR ||| S_IWUSR = 384 ∧ group_other_bits (S_IRUSR ||| S_IWUSR) = 0 := by
  have hg : group_other_bits (S_IRUSR ||| S_IWUSR) = 0 := by decide
  refine ⟨?_, ?_, ?_, by decide, hg⟩
  · intro pamh sys session_pid cr fs username ruser rhost rdomain password pw path
      h1 h2 h3 h4 h5 hpw hsocket hpath hbind
    obtain ⟨core, hcore, ho⟩ := open_session_outcome pamh sys session_pid username ruser rhost
      rdomain password pw path h1 h2 h3 h4 h5 hpw hsocket hpath
    obtain ⟨_, hmem, _, hfile⟩ := socket_file_of_outcome sys pw path core _ cr fs ho
    obtain ⟨hf1, hf2, hf3⟩ := hfile hbind
    rw [fs_after_open_session pamh sys session_pid cr fs core hcore]
    refine ⟨(bind_mem_open_session pamh sys session_pid core hcore _ _ _).mpr hmem, hf1, ?_,
      hf2, hf3, ?_⟩
    · intro hm
      by_cases hw : sys.chown_ret = 0
      · exact ⟨_, hf3 hm hw, rfl, hg⟩
      · exact ⟨_, (hf2 hm hw).2, rfl, hg⟩
    · intro hlen hm hw hf
      rw [open_session_parent_run pamh sys session_pid username ruser rhost rdomain password pw
        path h1 h2 h3 h4 h5 hlen hpw hsocket hpath hbind hm hw hf]
  · intro pamh sys session_pid fd p r hmem
    obtain ⟨core, hcore, hcases⟩ := open_session_core pamh sys session_pid
    rw [bind_mem_open_session pamh sys session_pid core hcore] at hmem
    rcases hcases with ⟨hnil, _⟩ | ⟨username, pw, path, h1, hpw, hpath, ho⟩
    · rw [hnil] at hmem
      cases hmem
    · obtain ⟨huniq, _, _, _⟩ := socket_file_of_outcome sys pw path core _ ⟨0, 0, 0⟩
        (fun _ => none) ho
      obtain ⟨hfd, hp, hr⟩ := huniq fd p r hmem
      exact ⟨username, pw, h1, hpw, by rw [hp]; exact hpath, hfd, hr⟩
  · intro pamh sys session_pid cr fs hout
    obtain ⟨core, hcore, hcases⟩ := open_session_core pamh sys session_pid
    rcases hcases with ⟨_, h | h | h⟩ | ⟨username, pw, path, h1, hpw, hpath, ho⟩
    · rw [h] at hout
      exact absurd hout (by decide)
    · rw [h] at hout
      exact absurd hout (by decide)
    · rw [h] at hout
      cases hout
    · obtain ⟨_, hmem, hsucc, hfile⟩ := socket_file_of_outcome sys pw path core _ cr fs ho
      obtain ⟨hb, hm, hw⟩ := hsucc hout
      refine ⟨username, pw, path, h1, hpw, hpath,
        (bind_mem_open_session pamh sys session_pid core hcore _ _ _).mpr hmem, hb, ?_⟩
      rw [fs_after_open_session pamh sys session_pid cr fs core hcore]
      exact (hfile hb).2.2 hm hw

/-- C8 (amended), in the scenario of the specification for an account with home
directory "/", when the socket file is created with bits 0755 and owner root:
after the call the file has bits 0600, no group or other bit, owner 1000:1000,
and the call returns `PAM_SUCCESS`. -/
theorem socket_file_permissions_witness :
    Event.bind 3 "//.freerdp-socket".toList 0 ∈
      (pam_sm_open_session (scenario_handle "secret".toList) (session_sys 0 5555 0) 0).events ∧
    (∃ m, fs_after ⟨493, 0, 0⟩ (fun _ => none)
        (pam_sm_open_session (scenario_handle "secret".toList) (session_sys 0 5555 0) 0).events
        "//.freerdp-socket".toList = some m ∧
      m.mode = S_IRUSR ||| S_IWUSR ∧ group_other_bits m.mode = 0) ∧
    fs_after ⟨493, 0, 0⟩ (fun _ => none)
      (pam_sm_open_session (scenario_handle "secret".toList) (session_sys 0 5555 0) 0).events
      "//.freerdp-socket".toList = some ⟨384, 1000, 1000⟩ ∧
    (pam_sm_open_session (scenario_handle "secret".toList) (session_sys 0 5555 0) 0).out =
      Term.ret PAM_SUCCESS :=
  have h := socket_file_permissions.1 (scenario_handle "secret".toList) (session_sys 0 5555 0) 0
    ⟨493, 0, 0⟩ (fun _ => none) "alice".toList "bob".toList "10.0.0.5".toList "CORP".toList
    "secret".toList slash_home "//.freerdp-socket".toList
    (scenario_items "secret".toList).1 (scenario_items "secret".toList).2.1
    (scenario_items "secret".toList).2.2.1 (scenario_items "secret".toList).2.2.2.1
    (scenario_items "secret".toList).2.2.2.2 rfl (by decide) sun_path_string_slash (by decide)
  ⟨h.1, h.2.2.1 rfl, h.2.2.2.2.1 rfl rfl, h.2.2.2.2.2 (by decide) rfl rfl (by decide)⟩

set_option maxRecDepth 100000 in
unseal sun_path_string in
/-- C8 as stated fails: when `chmod` fails after a successful `bind`, the call
returns `PAM_SYSTEM_ERR` and the socket file stays, with the bits it was created
with (here 0755: group and other may read and search). -/
theorem socket_file_left_open_on_chmod_failure :
    (pam_sm_open_session (scenario_handle "secret".toList) (session_sys (-1) 5555 0) 0).out =
      Term.ret PAM_SYSTEM_ERR ∧
    Event.bind 3 "//.freerdp-socket".toList 0 ∈
      (pam_sm_open_session (scenario_handle "secret".toList) (session_sys (-1) 5555 0) 0).events ∧
    fs_after ⟨493, 0, 0⟩ (fun _ => none)
      (pam_sm_open_session (scenario_handle "secret".toList) (session_sys (-1) 5555 0) 0).events
      "//.freerdp-socket".toList = some ⟨493, 0, 0⟩ ∧
    group_other_bits 493 = 45 := by
  decide

end PamFreerdp
